import Mathlib

/-!
# GPUCapsQuery: capability decoding and codec probing

A shallow embedding of `GPUCapsQuery.cpp` (the NVENC capability dump tool).

* C `int` values are `Int`; the bitwise operators act on the 32-bit two's
  complement pattern (`toU32` / `ofU32`).
* `std::cout` is a `String` that only grows; an `std::ostringstream` is a local
  `String`.
* The vendor header `nvEncodeAPI.h` is not part of the repository: the numeric
  values of its enumerators and its codec GUIDs are the fields of `NvEncApi`,
  a parameter of every definition that mentions one of them.
* `NvEncoder::GetCapabilityValue` is the external query operation.  It either
  returns an `int` or throws; the device behind it may answer the same question
  differently over time, so the model makes the answer a function of the
  queries issued so far.
* A C++ function that may throw returns `Except Exn Unit × World`: the effects
  on the output performed before the throw stay in the world.
* The one `double` computation (the throughput figure) is modelled in integer
  arithmetic: the binary64 quotient is the nearest `m / 2 ^ s` with 53
  significant bits, and the two-decimal text is that exact value rounded to
  hundredths, ties to even in both steps.
-/

namespace GPUCapsQuery

/-! ## Machine integers -/

/-- The 32-bit two's complement pattern of a C `int`, read as unsigned. -/
def toU32 (v : Int) : Nat := (v % 2 ^ 32).toNat

/-- The C `int` whose two's complement pattern is the low 32 bits of `n`. -/
def ofU32 (n : Nat) : Int :=
  if n % 2 ^ 32 < 2 ^ 31 then ((n % 2 ^ 32 : Nat) : Int) else ((n % 2 ^ 32 : Nat) : Int) - 2 ^ 32

/-- C `a & b` on `int`. -/
def intAnd (a b : Int) : Int := ofU32 (toU32 a &&& toU32 b)

/-- C `a | b` on `int`. -/
def intOr (a b : Int) : Int := ofU32 (toU32 a ||| toU32 b)

/-- C `~a` on `int`. -/
def intNot (a : Int) : Int := ofU32 (2 ^ 32 - 1 - toU32 a)

/-- C `a << k` on `int`, for a shift count below 32 (the tool only shifts `1`
by an enumerator or by a bit index); the pattern is cut to 32 bits. -/
def intShl (a : Int) (k : Nat) : Int := ofU32 (toU32 a <<< k)

/-- Text written by `stream << v` for an `int` in decimal mode, also the result
of `std::to_string(v)`. -/
def decStr (v : Int) : String :=
  (if v < 0 then "-" else "") ++ String.mk (Nat.toDigits 10 v.natAbs)

/-- Text written by `stream << std::hex << v` for an `int`: the value is
converted to `unsigned int` and written in lowercase hexadecimal, no prefix. -/
def hexStr (v : Int) : String := String.mk (Nat.toDigits 16 (toU32 v))

/-! ## The vendor API -/

/-- The Windows-style `GUID` record used by the vendor header. -/
structure GUID where
  Data1 : Nat
  Data2 : Nat
  Data3 : Nat
  Data4 : List Nat
deriving DecidableEq, Repr

/-- The declarations of `nvEncodeAPI.h` the tool uses: the value of every
`NV_ENC_CAPS` enumerator it names, the end marker of that enumeration, the
three rate-control mode numbers and the three codec GUIDs. -/
structure NvEncApi where
  NV_ENC_CAPS_NUM_MAX_BFRAMES : Int
  NV_ENC_CAPS_SUPPORTED_RATECONTROL_MODES : Int
  NV_ENC_CAPS_SUPPORT_FIELD_ENCODING : Int
  NV_ENC_CAPS_SUPPORT_MONOCHROME : Int
  NV_ENC_CAPS_SUPPORT_FMO : Int
  NV_ENC_CAPS_SUPPORT_QPELMV : Int
  NV_ENC_CAPS_SUPPORT_BDIRECT_MODE : Int
  NV_ENC_CAPS_SUPPORT_CABAC : Int
  NV_ENC_CAPS_SUPPORT_ADAPTIVE_TRANSFORM : Int
  NV_ENC_CAPS_SUPPORT_STEREO_MVC : Int
  NV_ENC_CAPS_NUM_MAX_TEMPORAL_LAYERS : Int
  NV_ENC_CAPS_SUPPORT_HIERARCHICAL_PFRAMES : Int
  NV_ENC_CAPS_SUPPORT_HIERARCHICAL_BFRAMES : Int
  NV_ENC_CAPS_LEVEL_MAX : Int
  NV_ENC_CAPS_LEVEL_MIN : Int
  NV_ENC_CAPS_SEPARATE_COLOUR_PLANE : Int
  NV_ENC_CAPS_WIDTH_MAX : Int
  NV_ENC_CAPS_HEIGHT_MAX : Int
  NV_ENC_CAPS_SUPPORT_TEMPORAL_SVC : Int
  NV_ENC_CAPS_SUPPORT_DYN_RES_CHANGE : Int
  NV_ENC_CAPS_SUPPORT_DYN_BITRATE_CHANGE : Int
  NV_ENC_CAPS_SUPPORT_DYN_FORCE_CONSTQP : Int
  NV_ENC_CAPS_SUPPORT_DYN_RCMODE_CHANGE : Int
  NV_ENC_CAPS_SUPPORT_SUBFRAME_READBACK : Int
  NV_ENC_CAPS_SUPPORT_CONSTRAINED_ENCODING : Int
  NV_ENC_CAPS_SUPPORT_INTRA_REFRESH : Int
  NV_ENC_CAPS_SUPPORT_CUSTOM_VBV_BUF_SIZE : Int
  NV_ENC_CAPS_SUPPORT_DYNAMIC_SLICE_MODE : Int
  NV_ENC_CAPS_SUPPORT_REF_PIC_INVALIDATION : Int
  NV_ENC_CAPS_PREPROC_SUPPORT : Int
  NV_ENC_CAPS_ASYNC_ENCODE_SUPPORT : Int
  NV_ENC_CAPS_MB_NUM_MAX : Int
  NV_ENC_CAPS_MB_PER_SEC_MAX : Int
  NV_ENC_CAPS_SUPPORT_YUV444_ENCODE : Int
  NV_ENC_CAPS_SUPPORT_LOSSLESS_ENCODE : Int
  NV_ENC_CAPS_SUPPORT_SAO : Int
  NV_ENC_CAPS_SUPPORT_MEONLY_MODE : Int
  NV_ENC_CAPS_SUPPORT_LOOKAHEAD : Int
  NV_ENC_CAPS_SUPPORT_TEMPORAL_AQ : Int
  NV_ENC_CAPS_SUPPORT_10BIT_ENCODE : Int
  NV_ENC_CAPS_NUM_MAX_LTR_FRAMES : Int
  NV_ENC_CAPS_SUPPORT_WEIGHTED_PREDICTION : Int
  NV_ENC_CAPS_DYNAMIC_QUERY_ENCODER_CAPACITY : Int
  NV_ENC_CAPS_SUPPORT_BFRAME_REF_MODE : Int
  NV_ENC_CAPS_SUPPORT_EMPHASIS_LEVEL_MAP : Int
  NV_ENC_CAPS_WIDTH_MIN : Int
  NV_ENC_CAPS_HEIGHT_MIN : Int
  NV_ENC_CAPS_SUPPORT_MULTIPLE_REF_FRAMES : Int
  NV_ENC_CAPS_SUPPORT_ALPHA_LAYER_ENCODING : Int
  NV_ENC_CAPS_NUM_ENCODER_ENGINES : Int
  NV_ENC_CAPS_SINGLE_SLICE_INTRA_REFRESH : Int
  NV_ENC_CAPS_DISABLE_ENC_STATE_ADVANCE : Int
  NV_ENC_CAPS_OUTPUT_RECON_SURFACE : Int
  NV_ENC_CAPS_OUTPUT_BLOCK_STATS : Int
  NV_ENC_CAPS_OUTPUT_ROW_STATS : Int
  NV_ENC_CAPS_EXPOSED_COUNT : Int
  NV_ENC_PARAMS_RC_CONSTQP : Nat
  NV_ENC_PARAMS_RC_VBR : Nat
  NV_ENC_PARAMS_RC_CBR : Nat
  NV_ENC_CODEC_H264_GUID : GUID
  NV_ENC_CODEC_HEVC_GUID : GUID
  NV_ENC_CODEC_AV1_GUID : GUID

/-- Field-wise comparison of two GUIDs (`memcmp` on `Data4`). -/
def GuidEqual (a b : GUID) : Bool :=
  a.Data1 == b.Data1 && a.Data2 == b.Data2 && a.Data3 == b.Data3 && a.Data4 == b.Data4

/-- Display name of a codec GUID. -/
def CodecNameFromGuid (api : NvEncApi) (g : GUID) : String :=
  if GuidEqual g api.NV_ENC_CODEC_H264_GUID then "H.264/AVC"
  else if GuidEqual g api.NV_ENC_CODEC_HEVC_GUID then "HEVC/H.265"
  else if GuidEqual g api.NV_ENC_CODEC_AV1_GUID then "AV1"
  else "Unknown"

/-- The initializer list of the `kCapNames` map, in source order.  A lookup is
`List.lookup`: constructing an `unordered_map` from a list keeps the first
entry of a key. -/
def kCapNames (api : NvEncApi) : List (Int × String) :=
  [ (api.NV_ENC_CAPS_NUM_MAX_BFRAMES, "Max B-Frames"),
    (api.NV_ENC_CAPS_SUPPORTED_RATECONTROL_MODES, "Supported Rate Control Modes"),
    (api.NV_ENC_CAPS_SUPPORT_FIELD_ENCODING, "Field Encoding"),
    (api.NV_ENC_CAPS_SUPPORT_MONOCHROME, "Monochrome Encode"),
    (api.NV_ENC_CAPS_SUPPORT_FMO, "FMO"),
    (api.NV_ENC_CAPS_SUPPORT_QPELMV, "Quarter-Pel ME"),
    (api.NV_ENC_CAPS_SUPPORT_BDIRECT_MODE, "BDirect Mode (H.264)"),
    (api.NV_ENC_CAPS_SUPPORT_CABAC, "CABAC (H.264)"),
    (api.NV_ENC_CAPS_SUPPORT_ADAPTIVE_TRANSFORM, "Adaptive Transform"),
    (api.NV_ENC_CAPS_SUPPORT_STEREO_MVC, "Stereo MVC"),
    (api.NV_ENC_CAPS_NUM_MAX_TEMPORAL_LAYERS, "Max Temporal Layers (or support flag)"),
    (api.NV_ENC_CAPS_SUPPORT_HIERARCHICAL_PFRAMES, "Hierarchical P-Frames"),
    (api.NV_ENC_CAPS_SUPPORT_HIERARCHICAL_BFRAMES, "Hierarchical B-Frames"),
    (api.NV_ENC_CAPS_LEVEL_MAX, "Max Level"),
    (api.NV_ENC_CAPS_LEVEL_MIN, "Min Level"),
    (api.NV_ENC_CAPS_SEPARATE_COLOUR_PLANE, "Separate Color Plane"),
    (api.NV_ENC_CAPS_WIDTH_MAX, "Max Width"),
    (api.NV_ENC_CAPS_HEIGHT_MAX, "Max Height"),
    (api.NV_ENC_CAPS_SUPPORT_TEMPORAL_SVC, "Temporal SVC"),
    (api.NV_ENC_CAPS_SUPPORT_DYN_RES_CHANGE, "Dynamic Resolution Change"),
    (api.NV_ENC_CAPS_SUPPORT_DYN_BITRATE_CHANGE, "Dynamic Bitrate Change"),
    (api.NV_ENC_CAPS_SUPPORT_DYN_FORCE_CONSTQP, "Dynamic Force CONSTQP"),
    (api.NV_ENC_CAPS_SUPPORT_DYN_RCMODE_CHANGE, "Dynamic RC Mode Change"),
    (api.NV_ENC_CAPS_SUPPORT_SUBFRAME_READBACK, "Subframe Readback"),
    (api.NV_ENC_CAPS_SUPPORT_CONSTRAINED_ENCODING, "Constrained Encoding"),
    (api.NV_ENC_CAPS_SUPPORT_INTRA_REFRESH, "Intra Refresh"),
    (api.NV_ENC_CAPS_SUPPORT_CUSTOM_VBV_BUF_SIZE, "Custom VBV Buffer Size"),
    (api.NV_ENC_CAPS_SUPPORT_DYNAMIC_SLICE_MODE, "Dynamic Slice Mode"),
    (api.NV_ENC_CAPS_SUPPORT_REF_PIC_INVALIDATION, "Reference Picture Invalidation"),
    (api.NV_ENC_CAPS_PREPROC_SUPPORT, "Pre-Processing (bitmask)"),
    (api.NV_ENC_CAPS_ASYNC_ENCODE_SUPPORT, "Async Encode"),
    (api.NV_ENC_CAPS_MB_NUM_MAX, "Max Macroblocks per Frame"),
    (api.NV_ENC_CAPS_MB_PER_SEC_MAX, "Max Macroblocks per Second"),
    (api.NV_ENC_CAPS_SUPPORT_YUV444_ENCODE, "YUV444 Encode"),
    (api.NV_ENC_CAPS_SUPPORT_LOSSLESS_ENCODE, "Lossless Encode"),
    (api.NV_ENC_CAPS_SUPPORT_SAO, "Sample Adaptive Offset (HEVC)"),
    (api.NV_ENC_CAPS_SUPPORT_MEONLY_MODE, "ME Only Mode"),
    (api.NV_ENC_CAPS_SUPPORT_LOOKAHEAD, "Lookahead"),
    (api.NV_ENC_CAPS_SUPPORT_TEMPORAL_AQ, "Temporal AQ"),
    (api.NV_ENC_CAPS_SUPPORT_10BIT_ENCODE, "10-bit Encode"),
    (api.NV_ENC_CAPS_NUM_MAX_LTR_FRAMES, "Max LTR Frames"),
    (api.NV_ENC_CAPS_SUPPORT_WEIGHTED_PREDICTION, "Weighted Prediction"),
    (api.NV_ENC_CAPS_DYNAMIC_QUERY_ENCODER_CAPACITY, "Dynamic Encoder Capacity (%)"),
    (api.NV_ENC_CAPS_SUPPORT_BFRAME_REF_MODE, "B-frame as Reference"),
    (api.NV_ENC_CAPS_SUPPORT_EMPHASIS_LEVEL_MAP, "Emphasis Level Map"),
    (api.NV_ENC_CAPS_WIDTH_MIN, "Min Width"),
    (api.NV_ENC_CAPS_HEIGHT_MIN, "Min Height"),
    (api.NV_ENC_CAPS_SUPPORT_MULTIPLE_REF_FRAMES, "Multiple Reference Frames"),
    (api.NV_ENC_CAPS_SUPPORT_ALPHA_LAYER_ENCODING, "HEVC Alpha Layer Encode"),
    (api.NV_ENC_CAPS_NUM_ENCODER_ENGINES, "Number of Encoder Engines"),
    (api.NV_ENC_CAPS_SINGLE_SLICE_INTRA_REFRESH, "Single Slice Intra Refresh"),
    (api.NV_ENC_CAPS_DISABLE_ENC_STATE_ADVANCE, "Disable Encoder State Advance"),
    (api.NV_ENC_CAPS_OUTPUT_RECON_SURFACE, "Reconstructed Frame Output"),
    (api.NV_ENC_CAPS_OUTPUT_BLOCK_STATS, "Output Block Stats"),
    (api.NV_ENC_CAPS_OUTPUT_ROW_STATS, "Output Row Stats") ]

/-! ## Value decoders -/

/-- One step of the "comma separated, `first` flag" loops of the bitmask
decoders: when `set` holds, append the separator unless this is the first term,
append the name and clear `first`. -/
def appendTerm (acc : String × Bool) (set : Bool) (name : String) : String × Bool :=
  if set then ((if !acc.2 then acc.1 ++ ", " else acc.1) ++ name, false) else acc

/-- Decoder of the rate-control bitmask. -/
def DecodeRateControlModes (api : NvEncApi) (mask : Int) : String :=
  let items : List (Int × String) :=
    [ (intShl 1 api.NV_ENC_PARAMS_RC_CONSTQP, "CONSTQP"),
      (intShl 1 api.NV_ENC_PARAMS_RC_VBR, "VBR"),
      (intShl 1 api.NV_ENC_PARAMS_RC_CBR, "CBR") ]
  let r := items.foldl (fun acc it => appendTerm acc (intAnd mask it.1 != 0) it.2) ("", true)
  if r.2 then "None" else r.1

/-- Decoder of the field-encoding code. -/
def DecodeFieldEncoding (v : Int) : String :=
  if v = 0 then "Interlaced: not supported"
  else if v = 1 then "Interlaced field: supported"
  else if v = 2 then "Interlaced frame + field: supported"
  else "Unknown"

/-- Decoder of the B-frame-as-reference code. -/
def DecodeBRefMode (v : Int) : String :=
  if v = 0 then "Not supported"
  else if v = 1 then "Each B-frame can be reference"
  else if v = 2 then "Only middle B-frame as reference"
  else "Unknown"

/-- Decoder of the ME-only-mode code. -/
def DecodeMeOnlyMode (v : Int) : String :=
  if v = 0 then "Not supported"
  else if v = 1 then "Supported for I and P"
  else if v = 2 then "Supported for I, P and B"
  else "Unknown"

/-- The `bits` table of `DecodePreprocFlags`. -/
def preprocBits : List (Nat × String) :=
  [ (0, "Denoise"), (1, "Resize"), (2, "Deinterlace"),
    (3, "Adaptive Transform/EdgeEnhance"), (4, "Color Conversion") ]

/-- Decoder of the preprocessing bitmask. -/
def DecodePreprocFlags (mask : Int) : String :=
  if mask = 0 then "None"
  else
    let r := preprocBits.foldl
      (fun acc b => appendTerm acc (intAnd mask (intShl 1 b.1) != 0) b.2) ("", true)
    let knownMask := preprocBits.foldl (fun k b => intOr k (intShl 1 b.1)) 0
    let unknown := intAnd mask (intNot knownMask)
    if unknown != 0 then
      (if !r.2 then r.1 ++ ", " else r.1) ++ "Other(0x" ++ hexStr unknown ++ ")"
    else r.1

/-- The H.264 level table. -/
def h264 : List (Int × String) :=
  [ (9, "1b"), (10, "1.0"), (11, "1.1"), (12, "1.2"), (13, "1.3"),
    (20, "2.0"), (21, "2.1"), (22, "2.2"),
    (30, "3.0"), (31, "3.1"), (32, "3.2"),
    (40, "4.0"), (41, "4.1"), (42, "4.2"),
    (50, "5.0"), (51, "5.1"), (52, "5.2"),
    (60, "6.0"), (61, "6.1"), (62, "6.2") ]

/-- The HEVC level table. -/
def hevc : List (Int × String) :=
  [ (30, "1.0"), (60, "2.0"), (63, "2.1"),
    (90, "3.0"), (93, "3.1"),
    (120, "4.0"), (123, "4.1"),
    (150, "5.0"), (153, "5.1"), (156, "5.2"),
    (180, "6.0"), (183, "6.1"), (186, "6.2") ]

/-- The AV1 level table, indexed from 0. -/
def av1 : List String :=
  [ "2.0", "2.1", "2.2", "2.3",
    "3.0", "3.1", "3.2", "3.3",
    "4.0", "4.1", "4.2", "4.3",
    "5.0", "5.1", "5.2", "5.3",
    "6.0", "6.1", "6.2", "6.3",
    "7.0", "7.1", "7.2", "7.3" ]

/-- Level code to level name, per codec.  The AV1 vector is read with the
checked accessor `List.get`, whose index must be shown to lie inside the
vector. -/
def DecodeLevel (api : NvEncApi) (codec : GUID) (val : Int) : String :=
  if GuidEqual codec api.NV_ENC_CODEC_H264_GUID then
    match h264.lookup val with
    | some s => s
    | none => "Unknown(" ++ decStr val ++ ")"
  else if GuidEqual codec api.NV_ENC_CODEC_HEVC_GUID then
    match hevc.lookup val with
    | some s => s
    | none => "Unknown(" ++ decStr val ++ ")"
  else if GuidEqual codec api.NV_ENC_CODEC_AV1_GUID then
    if h : 0 ≤ val ∧ val < (av1.length : Int) then av1.get ⟨val.toNat, by omega⟩
    else "Unknown(" ++ decStr val ++ ")"
  else "Unknown(" ++ decStr val ++ ")"

/-- Text for a flag value. -/
def ToSupportedNotSupported (value : Int) : String :=
  if value ≠ 0 then "Supported" else "Not supported"

/-! ## The dispatcher -/

/-- The name `PrintOneCap` shows for a capability id: the catalog entry, or
`CAP_` and the decimal id. -/
def capName (api : NvEncApi) (capId : Int) : String :=
  match (kCapNames api).lookup capId with
  | some s => s
  | none => "CAP_" ++ decStr capId

/-- Text written by `std::left << std::setw(38) << s`: `s`, then fill
characters up to 38 characters; a longer `s` is written whole. -/
def leftJustify38 (s : String) : String := s ++ String.mk (List.replicate (38 - s.length) ' ')

/-- The quotient `a / b` rounded to the nearest natural number, a tie going to
the even neighbour. -/
def divRoundEven (a b : Nat) : Nat :=
  let q := a / b
  let r := a % b
  if 2 * r < b then q else if b < 2 * r then q + 1 else if q % 2 = 0 then q else q + 1

/-- The number of fraction bits of the binary64 value nearest to `a / b`, for a
quotient below `2 ^ 53`: the least `s` that brings `a / b * 2 ^ s` up to
`2 ^ 52` (53 significant bits), and at most 1074 (the subnormal grid). -/
def fracBits (a b : Nat) : Nat :=
  ((List.range 1075).find? (fun s => decide (2 ^ 52 * b ≤ a * 2 ^ s))).getD 1074

/-- The hundredths written for `static_cast<double>(v) * 256.0 / 1e6` under
`std::fixed << std::setprecision(2)`, sign apart.  The conversion of `v` and
the product by `256.0` are exact in binary64; the division by `1e6` rounds the
exact quotient to the nearest binary64 value `m / 2 ^ s` (ties to even); the
formatting rounds that exact binary value to the nearest hundredth (ties to
even). -/
def mpixHundredths (v : Int) : Nat :=
  let a := (v * 256).natAbs
  let s := fracBits a 1000000
  let m := divRoundEven (a * 2 ^ s) 1000000
  divRoundEven (m * 100) (2 ^ s)

/-- Text written for `static_cast<double>(v) * 256.0 / 1e6` under
`std::fixed << std::setprecision(2)`: a minus sign for a negative value (also
when it rounds to zero), the integer part, a dot and two digits. -/
def mpixStr (v : Int) : String :=
  let h := mpixHundredths v
  let frac := h % 100
  (if v < 0 then "-" else "") ++ toString (h / 100) ++ "." ++
    (if frac < 10 then "0" else "") ++ toString frac

/-- Reference description of the throughput figure: the exact quotient
`v * 256 / 1000000` rounded to the nearest hundredth and written with two
decimal places: sign, integer part, dot, two digits.  (The quotient is never
half way between two hundredths: that would need `v * 32 = 625 * (2 * k + 1)`,
even against odd.) -/
def fixed2MpixStr (v : Int) : String :=
  let n := (v * 256).natAbs
  let h := (n + 5000) / 10000
  let frac := h % 100
  (if v < 0 then "-" else "") ++ toString (h / 100) ++ "." ++
    (if frac < 10 then "0" else "") ++ toString frac

/-- The case labels of the `switch` in `PrintOneCap`, in source order. -/
def caseLabels (api : NvEncApi) : List Int :=
  [ api.NV_ENC_CAPS_SUPPORTED_RATECONTROL_MODES,
    api.NV_ENC_CAPS_SUPPORT_FIELD_ENCODING,
    api.NV_ENC_CAPS_SUPPORT_BFRAME_REF_MODE,
    api.NV_ENC_CAPS_SUPPORT_MEONLY_MODE,
    api.NV_ENC_CAPS_PREPROC_SUPPORT,
    api.NV_ENC_CAPS_LEVEL_MAX,
    api.NV_ENC_CAPS_LEVEL_MIN,
    api.NV_ENC_CAPS_DYNAMIC_QUERY_ENCODER_CAPACITY,
    api.NV_ENC_CAPS_NUM_MAX_BFRAMES,
    api.NV_ENC_CAPS_NUM_MAX_TEMPORAL_LAYERS,
    api.NV_ENC_CAPS_WIDTH_MAX,
    api.NV_ENC_CAPS_HEIGHT_MAX,
    api.NV_ENC_CAPS_WIDTH_MIN,
    api.NV_ENC_CAPS_HEIGHT_MIN,
    api.NV_ENC_CAPS_MB_NUM_MAX,
    api.NV_ENC_CAPS_MB_PER_SEC_MAX,
    api.NV_ENC_CAPS_NUM_MAX_LTR_FRAMES,
    api.NV_ENC_CAPS_NUM_ENCODER_ENGINES ]

/-- The text the `switch (cap)` of `PrintOneCap` writes for the value `v`: the
decoded value of the line.  The cases are tried in source order (C++ requires
the labels to be pairwise different, so the order decides nothing there). -/
def decodedValue (api : NvEncApi) (codec : GUID) (cap : Int) (v : Int) : String :=
  if cap = api.NV_ENC_CAPS_SUPPORTED_RATECONTROL_MODES then DecodeRateControlModes api v
  else if cap = api.NV_ENC_CAPS_SUPPORT_FIELD_ENCODING then DecodeFieldEncoding v
  else if cap = api.NV_ENC_CAPS_SUPPORT_BFRAME_REF_MODE then DecodeBRefMode v
  else if cap = api.NV_ENC_CAPS_SUPPORT_MEONLY_MODE then DecodeMeOnlyMode v
  else if cap = api.NV_ENC_CAPS_PREPROC_SUPPORT then
    DecodePreprocFlags v ++ " (0x" ++ hexStr v ++ ")"
  else if cap = api.NV_ENC_CAPS_LEVEL_MAX ∨ cap = api.NV_ENC_CAPS_LEVEL_MIN then
    DecodeLevel api codec v ++ " (" ++ decStr v ++ ")"
  else if cap = api.NV_ENC_CAPS_DYNAMIC_QUERY_ENCODER_CAPACITY then decStr v ++ "%"
  else if cap = api.NV_ENC_CAPS_NUM_MAX_BFRAMES
      ∨ cap = api.NV_ENC_CAPS_NUM_MAX_TEMPORAL_LAYERS
      ∨ cap = api.NV_ENC_CAPS_WIDTH_MAX
      ∨ cap = api.NV_ENC_CAPS_HEIGHT_MAX
      ∨ cap = api.NV_ENC_CAPS_WIDTH_MIN
      ∨ cap = api.NV_ENC_CAPS_HEIGHT_MIN
      ∨ cap = api.NV_ENC_CAPS_MB_NUM_MAX
      ∨ cap = api.NV_ENC_CAPS_MB_PER_SEC_MAX
      ∨ cap = api.NV_ENC_CAPS_NUM_MAX_LTR_FRAMES
      ∨ cap = api.NV_ENC_CAPS_NUM_ENCODER_ENGINES then
    if cap = api.NV_ENC_CAPS_MB_PER_SEC_MAX then
      decStr v ++ " MB/s (~" ++ mpixStr v ++ " Mpix/s)"
    else decStr v
  else
    if v = 0 ∨ v = 1 then ToSupportedNotSupported v else decStr v

/-! ## The query operation and the output -/

/-- What a C++ call can throw here: an `NVENCException` carrying its NVENC
status code, or an exception of any other type. -/
inductive Exn where
  | nvenc (errorCode : Int)
  | other
deriving DecidableEq, Repr

/-- One capability query: the codec and the capability id asked for. -/
abbrev Query := GUID × Int

/-- The encoder session: `GetCapabilityValue prev codec cap` is the outcome of
the query `(codec, cap)` issued after the queries `prev` (oldest first). -/
structure NvEncoder where
  GetCapabilityValue : List Query → GUID → Int → Except Exn Int

/-- The observable state: the text written to `std::cout` so far and the
queries issued to the encoder so far (oldest first). -/
structure World where
  out : String
  queries : List Query

/-- Append text to `std::cout`. -/
def World.print (w : World) (t : String) : World := { w with out := w.out ++ t }

/-- Issue one query: it is recorded whether it returns or throws. -/
def World.query (enc : NvEncoder) (w : World) (codec : GUID) (cap : Int) :
    Except Exn Int × World :=
  (enc.GetCapabilityValue w.queries codec cap, { w with queries := w.queries ++ [(codec, cap)] })

/-- The whole line `PrintOneCap` writes for a capability whose value is `v`. -/
def capLine (api : NvEncApi) (codec : GUID) (cap : Int) (v : Int) : String :=
  "  - " ++ leftJustify38 (capName api cap) ++ " : " ++ decodedValue api codec cap v ++ "\n"

/-- Query one capability and write its line.  The query comes before the first
write, so a throwing query leaves the output as it was. -/
def PrintOneCap (api : NvEncApi) (enc : NvEncoder) (codec : GUID) (cap : Int) (w : World) :
    Except Exn Unit × World :=
  match w.query enc codec cap with
  | (Except.error e, w1) => (Except.error e, w1)
  | (Except.ok v, w1) => (Except.ok (), w1.print (capLine api codec cap v))

/-- The body of the sweep loop of `DumpCapsForCodec` over the ids still to
visit: an `NVENCException` from `PrintOneCap` is caught and the loop goes on,
any other exception leaves the loop and the function. -/
def sweep (api : NvEncApi) (enc : NvEncoder) (codec : GUID) :
    List Int → World → Except Exn Unit × World
  | [], w => (Except.ok (), w)
  | i :: rest, w =>
    match PrintOneCap api enc codec i w with
    | (Except.ok (), w1) => sweep api enc codec rest w1
    | (Except.error (Exn.nvenc _), w1) => sweep api enc codec rest w1
    | (Except.error Exn.other, w1) => (Except.error Exn.other, w1)

/-- The ids `for (int i = 0; i < NV_ENC_CAPS_EXPOSED_COUNT; ++i)` runs over. -/
def sweepIds (api : NvEncApi) : List Int :=
  (List.range api.NV_ENC_CAPS_EXPOSED_COUNT.toNat).map Int.ofNat

/-- The header line of a codec section. -/
def codecHeader (api : NvEncApi) (codec : GUID) : String :=
  "\n=== Codec: " ++ CodecNameFromGuid api codec ++ " ===\n"

/-- Probe the codec with a `NV_ENC_CAPS_WIDTH_MAX` query; on an
`NVENCException` return at once, otherwise write the header and sweep. -/
def DumpCapsForCodec (api : NvEncApi) (enc : NvEncoder) (codec : GUID) (w : World) :
    Except Exn Unit × World :=
  match w.query enc codec api.NV_ENC_CAPS_WIDTH_MAX with
  | (Except.error (Exn.nvenc _), w1) => (Except.ok (), w1)
  | (Except.error Exn.other, w1) => (Except.error Exn.other, w1)
  | (Except.ok _, w1) => sweep api enc codec (sweepIds api) (w1.print (codecHeader api codec))

/-- One iteration of the codec loop of `main`: `any` is set when
`DumpCapsForCodec` returns, and an exception of any type is ignored. -/
def mainLoopStep (api : NvEncApi) (enc : NvEncoder) (st : World × Bool) (c : GUID) :
    World × Bool :=
  match DumpCapsForCodec api enc c st.1 with
  | (Except.ok (), w1) => (w1, true)
  | (Except.error _, w1) => (w1, st.2)

/-- The codec loop of `main` and the message that follows it. -/
def mainLoop (api : NvEncApi) (enc : NvEncoder) (w : World) : World :=
  let codecs := [api.NV_ENC_CODEC_H264_GUID, api.NV_ENC_CODEC_HEVC_GUID, api.NV_ENC_CODEC_AV1_GUID]
  let r := codecs.foldl (mainLoopStep api enc) (w, false)
  if !r.2 then r.1.print "No supported NVENC codec found.\n" else r.1

/-! ## Reference descriptions of the bitmask decoders -/

/-- Reference description of the rate-control terms, for the NVENC mode numbers
CONSTQP = 0, VBR = 1, CBR = 2: the names of the modes, in that order, whose bit
`1 << mode` is set in the 32-bit pattern of the mask. -/
def rateControlNames (mask : Int) : List String :=
  ([(0, "CONSTQP"), (1, "VBR"), (2, "CBR")].filter
    (fun m : Nat × String => (toU32 mask).testBit m.1)).map Prod.snd

/-- Reference description of the rate-control decoder: the terms joined by
`", "`, or `"None"` when there is none. -/
def rateControlSpec (mask : Int) : String :=
  if rateControlNames mask = [] then "None" else ", ".intercalate (rateControlNames mask)

/-- The 32-bit unsigned value of the mask with its five low bits cleared. -/
def preprocResidual (mask : Int) : Nat := toU32 mask / 32 * 32

/-- Reference description of the preprocessing terms: the names of the set
bits among bits 0 to 4, in that order, then one `Other(0x<h>)` term exactly
when the residual is not zero, `<h>` its lowercase hexadecimal. -/
def preprocTerms (mask : Int) : List String :=
  ([(0, "Denoise"), (1, "Resize"), (2, "Deinterlace"),
    (3, "Adaptive Transform/EdgeEnhance"), (4, "Color Conversion")].filter
      (fun b : Nat × String => (toU32 mask).testBit b.1)).map Prod.snd ++
  (if preprocResidual mask ≠ 0 then
    ["Other(0x" ++ String.mk (Nat.toDigits 16 (preprocResidual mask)) ++ ")"] else [])

/-- Reference description of the preprocessing decoder: `"None"` for the mask
0, otherwise the terms joined by `", "`. -/
def preprocSpec (mask : Int) : String :=
  if mask = 0 then "None" else ", ".intercalate (preprocTerms mask)

/-! ## Reference description of the throughput suffix -/

/-- The text ends with the suffix of the throughput line, ` Mpix/s)`. -/
def endsWithMpix (s : String) : Prop := " Mpix/s)".data <:+ s.data

instance endsWithMpix.decidable (s : String) : Decidable (endsWithMpix s) := by
  unfold endsWithMpix; infer_instance

/-! ## Reference descriptions of the sweep -/

/-- The queries issued once `DumpCapsForCodec`, started in `w`, has done the
probe and visited the ids `0 .. k-1` of the sweep. -/
def queriesAfter (api : NvEncApi) (codec : GUID) (w : World) (k : Nat) : List Query :=
  (w.queries ++ [(codec, api.NV_ENC_CAPS_WIDTH_MAX)]) ++
    (List.range k).map (fun j => (codec, Int.ofNat j))

/-- The outcome of the query the sweep issues for id `k`. -/
def sweepAnswer (api : NvEncApi) (enc : NvEncoder) (codec : GUID) (w : World) (k : Nat) :
    Except Exn Int :=
  enc.GetCapabilityValue (queriesAfter api codec w k) codec (Int.ofNat k)

/-- The complete line of id `k` when its query succeeded, nothing otherwise. -/
def sweepLine? (api : NvEncApi) (enc : NvEncoder) (codec : GUID) (w : World) (k : Nat) :
    Option String :=
  match sweepAnswer api enc codec w k with
  | Except.ok v => some (capLine api codec (Int.ofNat k) v)
  | Except.error _ => none

/-- The value the sweep reads for id `k` (`0` stands in when the query throws). -/
def sweepValue (api : NvEncApi) (enc : NvEncoder) (codec : GUID) (w : World) (k : Nat) : Int :=
  match sweepAnswer api enc codec w k with
  | Except.ok v => v
  | Except.error _ => 0

/-! ## A concrete header and concrete encoders -/

/-- A concrete header: the capability enumerators numbered from 0 in the order
of the catalog with the end marker right after them, the rate-control modes
numbered 0, 1, 2, and three different codec GUIDs. -/
def sampleApi : NvEncApi where
  NV_ENC_CAPS_NUM_MAX_BFRAMES := 0
  NV_ENC_CAPS_SUPPORTED_RATECONTROL_MODES := 1
  NV_ENC_CAPS_SUPPORT_FIELD_ENCODING := 2
  NV_ENC_CAPS_SUPPORT_MONOCHROME := 3
  NV_ENC_CAPS_SUPPORT_FMO := 4
  NV_ENC_CAPS_SUPPORT_QPELMV := 5
  NV_ENC_CAPS_SUPPORT_BDIRECT_MODE := 6
  NV_ENC_CAPS_SUPPORT_CABAC := 7
  NV_ENC_CAPS_SUPPORT_ADAPTIVE_TRANSFORM := 8
  NV_ENC_CAPS_SUPPORT_STEREO_MVC := 9
  NV_ENC_CAPS_NUM_MAX_TEMPORAL_LAYERS := 10
  NV_ENC_CAPS_SUPPORT_HIERARCHICAL_PFRAMES := 11
  NV_ENC_CAPS_SUPPORT_HIERARCHICAL_BFRAMES := 12
  NV_ENC_CAPS_LEVEL_MAX := 13
  NV_ENC_CAPS_LEVEL_MIN := 14
  NV_ENC_CAPS_SEPARATE_COLOUR_PLANE := 15
  NV_ENC_CAPS_WIDTH_MAX := 16
  NV_ENC_CAPS_HEIGHT_MAX := 17
  NV_ENC_CAPS_SUPPORT_TEMPORAL_SVC := 18
  NV_ENC_CAPS_SUPPORT_DYN_RES_CHANGE := 19
  NV_ENC_CAPS_SUPPORT_DYN_BITRATE_CHANGE := 20
  NV_ENC_CAPS_SUPPORT_DYN_FORCE_CONSTQP := 21
  NV_ENC_CAPS_SUPPORT_DYN_RCMODE_CHANGE := 22
  NV_ENC_CAPS_SUPPORT_SUBFRAME_READBACK := 23
  NV_ENC_CAPS_SUPPORT_CONSTRAINED_ENCODING := 24
  NV_ENC_CAPS_SUPPORT_INTRA_REFRESH := 25
  NV_ENC_CAPS_SUPPORT_CUSTOM_VBV_BUF_SIZE := 26
  NV_ENC_CAPS_SUPPORT_DYNAMIC_SLICE_MODE := 27
  NV_ENC_CAPS_SUPPORT_REF_PIC_INVALIDATION := 28
  NV_ENC_CAPS_PREPROC_SUPPORT := 29
  NV_ENC_CAPS_ASYNC_ENCODE_SUPPORT := 30
  NV_ENC_CAPS_MB_NUM_MAX := 31
  NV_ENC_CAPS_MB_PER_SEC_MAX := 32
  NV_ENC_CAPS_SUPPORT_YUV444_ENCODE := 33
  NV_ENC_CAPS_SUPPORT_LOSSLESS_ENCODE := 34
  NV_ENC_CAPS_SUPPORT_SAO := 35
  NV_ENC_CAPS_SUPPORT_MEONLY_MODE := 36
  NV_ENC_CAPS_SUPPORT_LOOKAHEAD := 37
  NV_ENC_CAPS_SUPPORT_TEMPORAL_AQ := 38
  NV_ENC_CAPS_SUPPORT_10BIT_ENCODE := 39
  NV_ENC_CAPS_NUM_MAX_LTR_FRAMES := 40
  NV_ENC_CAPS_SUPPORT_WEIGHTED_PREDICTION := 41
  NV_ENC_CAPS_DYNAMIC_QUERY_ENCODER_CAPACITY := 42
  NV_ENC_CAPS_SUPPORT_BFRAME_REF_MODE := 43
  NV_ENC_CAPS_SUPPORT_EMPHASIS_LEVEL_MAP := 44
  NV_ENC_CAPS_WIDTH_MIN := 45
  NV_ENC_CAPS_HEIGHT_MIN := 46
  NV_ENC_CAPS_SUPPORT_MULTIPLE_REF_FRAMES := 47
  NV_ENC_CAPS_SUPPORT_ALPHA_LAYER_ENCODING := 48
  NV_ENC_CAPS_NUM_ENCODER_ENGINES := 49
  NV_ENC_CAPS_SINGLE_SLICE_INTRA_REFRESH := 50
  NV_ENC_CAPS_DISABLE_ENC_STATE_ADVANCE := 51
  NV_ENC_CAPS_OUTPUT_RECON_SURFACE := 52
  NV_ENC_CAPS_OUTPUT_BLOCK_STATS := 53
  NV_ENC_CAPS_OUTPUT_ROW_STATS := 54
  NV_ENC_CAPS_EXPOSED_COUNT := 55
  NV_ENC_PARAMS_RC_CONSTQP := 0
  NV_ENC_PARAMS_RC_VBR := 1
  NV_ENC_PARAMS_RC_CBR := 2
  NV_ENC_CODEC_H264_GUID := ⟨0x6bc82762, 0x4e63, 0x4ca4, [0xaa, 0x85, 0x1e, 0x50, 0xf3, 0x21, 0xf6, 0xbf]⟩
  NV_ENC_CODEC_HEVC_GUID := ⟨0x790cdc88, 0x4522, 0x4d7b, [0x94, 0x25, 0xbd, 0xa9, 0x97, 0x5f, 0x76, 0x03]⟩
  NV_ENC_CODEC_AV1_GUID := ⟨0x0a352289, 0x0c06, 0x4d50, [0x94, 0x25, 0xbd, 0xa9, 0x97, 0x5f, 0x76, 0x04]⟩

/-- A header with one capability enumerator more than the catalog names: the
sample header with the end marker moved to 56, so that 55 is a capability id
without a catalog entry. -/
def sampleApi56 : NvEncApi := { sampleApi with NV_ENC_CAPS_EXPOSED_COUNT := 56 }

/-- An encoder whose every query throws an `NVENCException` with the given
status code. -/
def failingEncoder (errorCode : Int) : NvEncoder where
  GetCapabilityValue := fun _ _ _ => Except.error (Exn.nvenc errorCode)

/-- An encoder whose every query throws an exception that is not an
`NVENCException`. -/
def crashingEncoder : NvEncoder where
  GetCapabilityValue := fun _ _ _ => Except.error Exn.other

/-- An encoder whose every query returns the given value. -/
def constEncoder (v : Int) : NvEncoder where
  GetCapabilityValue := fun _ _ _ => Except.ok v

/-- An encoder that answers the first query (the probe) with `v` and throws an
`NVENCException` with the given status code on every later one. -/
def probeOnlyEncoder (v : Int) (errorCode : Int) : NvEncoder where
  GetCapabilityValue := fun prev _ _ =>
    if prev.isEmpty then Except.ok v else Except.error (Exn.nvenc errorCode)

/-- An encoder that throws an `NVENCException` with status 12 for every odd
capability id and returns `1` for every even one. -/
def oddFailingEncoder : NvEncoder where
  GetCapabilityValue := fun _ _ cap =>
    if cap % 2 = 1 then Except.error (Exn.nvenc 12) else Except.ok 1

/-- The world before the tool has written or asked anything. -/
def World.start : World := { out := "", queries := [] }

/-! ## Basic facts -/

theorem GuidEqual_iff (a b : GUID) : GuidEqual a b = true ↔ a = b := by
  cases a; cases b
  simp [GuidEqual, and_assoc]

theorem GuidEqual_self (a : GUID) : GuidEqual a a = true := (GuidEqual_iff a a).2 rfl

theorem query_eq (enc : NvEncoder) (w : World) (codec : GUID) (cap : Int) :
    w.query enc codec cap = (enc.GetCapabilityValue w.queries codec cap,
      { out := w.out, queries := w.queries ++ [(codec, cap)] }) := rfl

/-- A probe that throws an `NVENCException` makes `DumpCapsForCodec` return
normally, with nothing written and the probe as only query. -/
theorem DumpCapsForCodec_probe_nvenc (api : NvEncApi) (enc : NvEncoder) (codec : GUID)
    (w : World) (code : Int)
    (h : enc.GetCapabilityValue w.queries codec api.NV_ENC_CAPS_WIDTH_MAX
      = Except.error (Exn.nvenc code)) :
    DumpCapsForCodec api enc codec w = (Except.ok (),
      { out := w.out, queries := w.queries ++ [(codec, api.NV_ENC_CAPS_WIDTH_MAX)] }) := by
  simp [DumpCapsForCodec, query_eq, h]

/-- A probe that throws another exception makes `DumpCapsForCodec` throw it,
with nothing written and the probe as only query. -/
theorem DumpCapsForCodec_probe_other (api : NvEncApi) (enc : NvEncoder) (codec : GUID)
    (w : World)
    (h : enc.GetCapabilityValue w.queries codec api.NV_ENC_CAPS_WIDTH_MAX
      = Except.error Exn.other) :
    DumpCapsForCodec api enc codec w = (Except.error Exn.other,
      { out := w.out, queries := w.queries ++ [(codec, api.NV_ENC_CAPS_WIDTH_MAX)] }) := by
  simp [DumpCapsForCodec, query_eq, h]

theorem foldl_append_eq (l : List String) (acc : String) :
    List.foldl (fun r s => r ++ s) acc l = acc ++ List.foldl (fun r s => r ++ s) "" l := by
  induction l generalizing acc with
  | nil => simp
  | cons a l ih =>
    simp only [List.foldl_cons]
    rw [ih (acc ++ a), ih ("" ++ a)]
    simp [String.append_assoc]

theorem join_cons (a : String) (l : List String) : String.join (a :: l) = a ++ String.join l := by
  simp only [String.join, List.foldl_cons]
  rw [foldl_append_eq]
  simp

theorem PrintOneCap_ok (api : NvEncApi) (enc : NvEncoder) (codec : GUID) (cap : Int) (w : World)
    (v : Int) (h : enc.GetCapabilityValue w.queries codec cap = Except.ok v) :
    PrintOneCap api enc codec cap w = (Except.ok (),
      { out := w.out ++ capLine api codec cap v, queries := w.queries ++ [(codec, cap)] }) := by
  simp [PrintOneCap, query_eq, h, World.print]

theorem PrintOneCap_error (api : NvEncApi) (enc : NvEncoder) (codec : GUID) (cap : Int) (w : World)
    (e : Exn) (h : enc.GetCapabilityValue w.queries codec cap = Except.error e) :
    PrintOneCap api enc codec cap w = (Except.error e,
      { out := w.out, queries := w.queries ++ [(codec, cap)] }) := by
  simp [PrintOneCap, query_eq, h]

theorem sweep_cons_ok (api : NvEncApi) (enc : NvEncoder) (codec : GUID) (cap : Int)
    (rest : List Int) (w : World) (v : Int)
    (h : enc.GetCapabilityValue w.queries codec cap = Except.ok v) :
    sweep api enc codec (cap :: rest) w = sweep api enc codec rest
      { out := w.out ++ capLine api codec cap v, queries := w.queries ++ [(codec, cap)] } := by
  simp [sweep, PrintOneCap_ok api enc codec cap w v h]

theorem sweep_cons_nvenc (api : NvEncApi) (enc : NvEncoder) (codec : GUID) (cap : Int)
    (rest : List Int) (w : World) (code : Int)
    (h : enc.GetCapabilityValue w.queries codec cap = Except.error (Exn.nvenc code)) :
    sweep api enc codec (cap :: rest) w = sweep api enc codec rest
      { out := w.out, queries := w.queries ++ [(codec, cap)] } := by
  simp [sweep, PrintOneCap_error api enc codec cap w _ h]

theorem sweep_cons_other (api : NvEncApi) (enc : NvEncoder) (codec : GUID) (cap : Int)
    (rest : List Int) (w : World)
    (h : enc.GetCapabilityValue w.queries codec cap = Except.error Exn.other) :
    sweep api enc codec (cap :: rest) w = (Except.error Exn.other,
      { out := w.out, queries := w.queries ++ [(codec, cap)] }) := by
  simp [sweep, PrintOneCap_error api enc codec cap w _ h]

theorem queriesAfter_succ (api : NvEncApi) (codec : GUID) (w : World) (k : Nat) :
    queriesAfter api codec w (k + 1) = queriesAfter api codec w k ++ [(codec, Int.ofNat k)] := by
  simp [queriesAfter, List.range_succ]

theorem sweep_range (api : NvEncApi) (enc : NvEncoder) (codec : GUID) (w0 : World) :
    ∀ (m k : Nat) (w : World), w.queries = queriesAfter api codec w0 k →
      (∀ j, k ≤ j → j < k + m → sweepAnswer api enc codec w0 j ≠ Except.error Exn.other) →
      sweep api enc codec ((List.range' k m).map Int.ofNat) w = (Except.ok (),
        { out := w.out ++ String.join ((List.range' k m).filterMap (sweepLine? api enc codec w0)),
          queries := queriesAfter api codec w0 (k + m) }) := by
  intro m
  induction m with
  | zero =>
    intro k w hq _
    simp [sweep, String.join, ← hq]
  | succ m ih =>
    intro k w hq hne
    have hk := hne k (Nat.le_refl k) (by omega)
    have hrec : ∀ w1 : World, w1.queries = queriesAfter api codec w0 (k + 1) →
        sweep api enc codec ((List.range' (k + 1) m).map Int.ofNat) w1 = (Except.ok (),
        { out := w1.out ++
            String.join ((List.range' (k + 1) m).filterMap (sweepLine? api enc codec w0)),
          queries := queriesAfter api codec w0 (k + 1 + m) }) := fun w1 h1 =>
      ih (k + 1) w1 h1 (fun j h1 h2 => hne j (by omega) (by omega))
    have hidx : k + 1 + m = k + (m + 1) := by omega
    simp only [List.range', List.map_cons]
    cases hans : sweepAnswer api enc codec w0 k with
    | ok v =>
      have hq' : enc.GetCapabilityValue w.queries codec (Int.ofNat k) = Except.ok v := by
        rw [hq]; exact hans
      rw [sweep_cons_ok api enc codec _ _ w v hq', hrec _ (by simp [hq, queriesAfter_succ])]
      simp [List.filterMap_cons, sweepLine?, hans, join_cons, String.append_assoc, hidx]
    | error e =>
      cases e with
      | other => exact absurd hans hk
      | nvenc code =>
        have hq' : enc.GetCapabilityValue w.queries codec (Int.ofNat k)
            = Except.error (Exn.nvenc code) := by
          rw [hq]; exact hans
        rw [sweep_cons_nvenc api enc codec _ _ w code hq', hrec _ (by simp [hq, queriesAfter_succ])]
        simp [List.filterMap_cons, sweepLine?, hans, hidx]

theorem DumpCapsForCodec_closed_form (api : NvEncApi) (enc : NvEncoder) (codec : GUID)
    (w : World) (v0 : Int)
    (hprobe : enc.GetCapabilityValue w.queries codec api.NV_ENC_CAPS_WIDTH_MAX = Except.ok v0)
    (hne : ∀ k, k < api.NV_ENC_CAPS_EXPOSED_COUNT.toNat →
      sweepAnswer api enc codec w k ≠ Except.error Exn.other) :
    DumpCapsForCodec api enc codec w = (Except.ok (),
      { out := w.out ++ codecHeader api codec ++ String.join
          ((List.range api.NV_ENC_CAPS_EXPOSED_COUNT.toNat).filterMap (sweepLine? api enc codec w)),
        queries := queriesAfter api codec w api.NV_ENC_CAPS_EXPOSED_COUNT.toNat }) := by
  have h := sweep_range api enc codec w api.NV_ENC_CAPS_EXPOSED_COUNT.toNat 0
    { out := w.out ++ codecHeader api codec,
      queries := w.queries ++ [(codec, api.NV_ENC_CAPS_WIDTH_MAX)] }
    (by simp [queriesAfter]) (fun j _ h2 => hne j (by omega))
  simp only [Nat.zero_add, ← List.range_eq_range'] at h
  simp [DumpCapsForCodec, query_eq, hprobe, World.print, sweepIds, h]

theorem queriesAfter_eq (api : NvEncApi) (codec : GUID) (w : World) :
    queriesAfter api codec w api.NV_ENC_CAPS_EXPOSED_COUNT.toNat
      = w.queries ++ (codec, api.NV_ENC_CAPS_WIDTH_MAX) :: (sweepIds api).map (fun i => (codec, i)) := by
  simp [queriesAfter, sweepIds, List.map_map, Function.comp_def]

theorem lookup_of_mem_nodup (l : List (Int × String)) (hnd : (l.map Prod.fst).Nodup)
    (e : Int × String) (he : e ∈ l) : l.lookup e.1 = some e.2 := by
  induction l with
  | nil => cases he
  | cons a l ih =>
    obtain ⟨k, s⟩ := a
    rw [List.map_cons, List.nodup_cons] at hnd
    rcases List.mem_cons.1 he with rfl | hmem
    · simp [List.lookup]
    · have hne : e.1 ≠ k := by
        intro h
        have hin : e.1 ∈ l.map Prod.fst := List.mem_map_of_mem Prod.fst hmem
        rw [h] at hin
        exact hnd.1 hin
      have hb : (e.1 == k) = false := by simpa using hne
      simp only [List.lookup, hb]
      exact ih hnd.2 hmem

theorem filterMap_eq_map_of_some {α β : Type} (f : α → Option β) (g : α → β) (l : List α)
    (h : ∀ a ∈ l, f a = some (g a)) : l.filterMap f = l.map g := by
  induction l with
  | nil => rfl
  | cons a l ih =>
    have ha := h a (List.mem_cons_self a l)
    simp [List.filterMap_cons, ha, ih (fun b hb => h b (List.mem_cons_of_mem a hb))]

/-! ## Machine integers and bit tests -/

theorem toU32_lt (v : Int) : toU32 v < 2 ^ 32 := by
  unfold toU32
  have h1 : 0 ≤ v % 2 ^ 32 := Int.emod_nonneg _ (by norm_num)
  have h2 : v % 2 ^ 32 < 2 ^ 32 := Int.emod_lt_of_pos _ (by norm_num)
  omega

theorem toU32_ofU32 (n : Nat) : toU32 (ofU32 n) = n % 2 ^ 32 := by
  unfold toU32 ofU32
  split <;> omega

theorem ofU32_eq_zero_iff (n : Nat) : ofU32 n = 0 ↔ n % 2 ^ 32 = 0 := by
  unfold ofU32
  split <;> omega

theorem and_two_pow_eq (n k : Nat) : n &&& 2 ^ k = if n.testBit k then 2 ^ k else 0 := by
  apply Nat.eq_of_testBit_eq
  intro i
  rw [Nat.testBit_and, Nat.testBit_two_pow]
  by_cases hki : k = i
  · subst hki
    cases h : n.testBit k <;> simp [Nat.testBit_two_pow_self]
  · cases h : n.testBit k <;> simp [hki, Nat.testBit_two_pow_of_ne hki]

theorem intShl_one (k : Nat) : intShl 1 k = ofU32 (2 ^ k) := by
  have h1 : toU32 1 = 1 := by decide
  simp [intShl, h1, Nat.shiftLeft_eq]

theorem intAnd_bit (mask : Int) (k : Nat) (hk : k < 32) :
    (intAnd mask (intShl 1 k) != 0) = (toU32 mask).testBit k := by
  have hpow : 2 ^ k < 2 ^ 32 := Nat.pow_lt_pow_right (by norm_num) hk
  have hmod : 2 ^ k % 2 ^ 32 = 2 ^ k := Nat.mod_eq_of_lt hpow
  have hpos : 0 < 2 ^ k := Nat.two_pow_pos k
  rw [intShl_one, intAnd, toU32_ofU32, hmod, and_two_pow_eq]
  cases h : (toU32 mask).testBit k
  · simp [ofU32]
  · have hne : ofU32 (2 ^ k) ≠ 0 := by
      rw [Ne, ofU32_eq_zero_iff, hmod]
      omega
    simpa using hne

theorem and_high_mask (m : Nat) (hm : m < 2 ^ 32) : m &&& 4294967264 = m / 32 * 32 := by
  apply Nat.eq_of_testBit_eq
  intro i
  have hK : (4294967264 : Nat) = 2 ^ 5 * (2 ^ 27 - 1) := by norm_num
  have hm32 : m / 32 * 32 = 2 ^ 5 * (m >>> 5) := by
    rw [Nat.shiftRight_eq_div_pow]; norm_num [Nat.mul_comm]
  rw [Nat.testBit_and, hK, hm32, Nat.testBit_mul_pow_two, Nat.testBit_mul_pow_two,
    Nat.testBit_two_pow_sub_one, Nat.testBit_shiftRight]
  by_cases h5 : i ≥ 5
  · have e : 5 + (i - 5) = i := by omega
    rw [e]
    by_cases h32 : i < 32
    · have : i - 5 < 27 := by omega
      simp [h5, this]
    · have hlt : m < 2 ^ i := lt_of_lt_of_le hm (Nat.pow_le_pow_right (by norm_num) (by omega))
      simp [Nat.testBit_lt_two_pow hlt]
  · simp [h5]

theorem preproc_unknown (mask : Int) :
    toU32 (intAnd mask (intNot
      (preprocBits.foldl (fun k b => intOr k (intShl 1 b.1)) 0))) = preprocResidual mask := by
  have hk : preprocBits.foldl (fun k b => intOr k (intShl 1 b.1)) 0 = 31 := by decide
  have hn : toU32 (intNot 31) = 4294967264 := by decide
  rw [hk, intAnd, toU32_ofU32, hn, and_high_mask _ (toU32_lt mask), preprocResidual]
  have := toU32_lt mask
  omega

/-! ## Table lookups -/

theorem lookup_eq_none_of_not_mem (l : List (Int × String)) (k : Int)
    (h : k ∉ l.map Prod.fst) : l.lookup k = none := by
  induction l with
  | nil => rfl
  | cons a l ih =>
    obtain ⟨k', s⟩ := a
    simp only [List.map_cons, List.mem_cons, not_or] at h
    have hb : (k == k') = false := by simpa using h.1
    simp only [List.lookup, hb]
    exact ih h.2

theorem h264_hit : ∀ k ∈ h264.map Prod.fst,
    (h264.lookup k).isSome = true ∧ h264.lookup k ≠ some ("Unknown(" ++ decStr k ++ ")") := by
  decide

theorem hevc_hit : ∀ k ∈ hevc.map Prod.fst,
    (hevc.lookup k).isSome = true ∧ hevc.lookup k ≠ some ("Unknown(" ++ decStr k ++ ")") := by
  decide

theorem av1_hit : ∀ n : Fin 24, av1[n.val]? ≠ some ("Unknown(" ++ decStr (Int.ofNat n.val) ++ ")") ∧
    (av1[n.val]?).isSome = true := by
  decide

theorem table_branch (l : List (Int × String)) (val : Int)
    (hit : ∀ k ∈ l.map Prod.fst,
      (l.lookup k).isSome = true ∧ l.lookup k ≠ some ("Unknown(" ++ decStr k ++ ")")) :
    (match l.lookup val with
      | some s => s
      | none => "Unknown(" ++ decStr val ++ ")") = "Unknown(" ++ decStr val ++ ")"
      ↔ val ∉ l.map Prod.fst := by
  constructor
  · intro h hmem
    obtain ⟨h1, h2⟩ := hit val hmem
    cases hl : l.lookup val with
    | none => simp [hl] at h1
    | some s =>
      rw [hl] at h h2
      exact h2 (congrArg some h)
  · intro h
    rw [lookup_eq_none_of_not_mem l val h]

theorem DecodeLevel_av1_in_range (api : NvEncApi) (codec : GUID) (val : Int)
    (h1 : GuidEqual codec api.NV_ENC_CODEC_H264_GUID = false)
    (h2 : GuidEqual codec api.NV_ENC_CODEC_HEVC_GUID = false)
    (h3 : GuidEqual codec api.NV_ENC_CODEC_AV1_GUID = true)
    (hr : 0 ≤ val ∧ val < 24) :
    av1[val.toNat]? = some (DecodeLevel api codec val) := by
  have hr' : 0 ≤ val ∧ val < (av1.length : Int) := hr
  simp only [DecodeLevel, h1, h2, h3, Bool.false_eq_true, if_false, if_true, dif_pos hr']
  rw [List.getElem?_eq_getElem]
  rfl

theorem guid_tests (api : NvEncApi)
    (hg : [api.NV_ENC_CODEC_H264_GUID, api.NV_ENC_CODEC_HEVC_GUID,
      api.NV_ENC_CODEC_AV1_GUID].Nodup) :
    GuidEqual api.NV_ENC_CODEC_HEVC_GUID api.NV_ENC_CODEC_H264_GUID = false ∧
    GuidEqual api.NV_ENC_CODEC_AV1_GUID api.NV_ENC_CODEC_H264_GUID = false ∧
    GuidEqual api.NV_ENC_CODEC_AV1_GUID api.NV_ENC_CODEC_HEVC_GUID = false := by
  simp only [List.nodup_cons, List.mem_cons, List.mem_singleton, not_or, List.not_mem_nil,
    not_false_eq_true, List.nodup_nil, and_true] at hg
  obtain ⟨⟨h12, h13⟩, h23⟩ := hg
  refine ⟨?_, ?_, ?_⟩
  · rw [Bool.eq_false_iff, Ne, GuidEqual_iff]; exact fun h => h12 h.symm
  · rw [Bool.eq_false_iff, Ne, GuidEqual_iff]; exact fun h => h13 h.symm
  · rw [Bool.eq_false_iff, Ne, GuidEqual_iff]; exact fun h => h23 h.symm

theorem decodedValue_level (api : NvEncApi) (codec : GUID) (cap v : Int)
    (hlab : (caseLabels api).Nodup)
    (hcap : cap = api.NV_ENC_CAPS_LEVEL_MAX ∨ cap = api.NV_ENC_CAPS_LEVEL_MIN) :
    decodedValue api codec cap v = DecodeLevel api codec v ++ " (" ++ decStr v ++ ")" := by
  simp only [caseLabels, List.nodup_cons, List.mem_cons, List.mem_singleton, not_or,
    List.not_mem_nil, not_false_eq_true, List.nodup_nil, and_true] at hlab
  obtain ⟨a1, a2, a3, a4, a5, -⟩ := hlab
  rcases hcap with rfl | rfl
  · simp [decodedValue, Ne.symm a1.2.2.2.2.1, Ne.symm a2.2.2.2.1, Ne.symm a3.2.2.1,
      Ne.symm a4.2.1, Ne.symm a5.1]
  · simp [decodedValue, Ne.symm a1.2.2.2.2.2.1, Ne.symm a2.2.2.2.2.1, Ne.symm a3.2.2.2.1,
      Ne.symm a4.2.2.1, Ne.symm a5.2.1]

/-! ## The codec loop of `main` -/

/-- C1, the code at the failing input: when the probe of every codec throws an
`NVENCException`, each call of `DumpCapsForCodec` returns normally, `any` is
set, and the codec loop of `main` writes nothing at all: the message
"No supported NVENC codec found." does not appear.  The three probes are the
only queries. -/
theorem mainLoop_silent_when_every_probe_fails (api : NvEncApi) (enc : NvEncoder) (w : World)
    (h : ∀ prev codec, ∃ code,
      enc.GetCapabilityValue prev codec api.NV_ENC_CAPS_WIDTH_MAX = Except.error (Exn.nvenc code)) :
    (mainLoop api enc w).out = w.out ∧
    (mainLoop api enc w).queries = w.queries ++
      [ (api.NV_ENC_CODEC_H264_GUID, api.NV_ENC_CAPS_WIDTH_MAX),
        (api.NV_ENC_CODEC_HEVC_GUID, api.NV_ENC_CAPS_WIDTH_MAX),
        (api.NV_ENC_CODEC_AV1_GUID, api.NV_ENC_CAPS_WIDTH_MAX) ] := by
  have step : ∀ (w0 : World) (b : Bool) (c : GUID), mainLoopStep api enc (w0, b) c =
      ({ out := w0.out, queries := w0.queries ++ [(c, api.NV_ENC_CAPS_WIDTH_MAX)] }, true) := by
    intro w0 b c
    obtain ⟨code, hc⟩ := h w0.queries c
    simp [mainLoopStep, DumpCapsForCodec_probe_nvenc api enc c w0 code hc]
  simp [mainLoop, List.foldl, step]

/-- Witness of the silent loop: the sample header and an encoder that rejects
every query with status 12. -/
theorem mainLoop_silent_when_every_probe_fails_witness :
    (mainLoop sampleApi (failingEncoder 12) World.start).out = World.start.out ∧
    (mainLoop sampleApi (failingEncoder 12) World.start).queries = World.start.queries ++
      [ (sampleApi.NV_ENC_CODEC_H264_GUID, sampleApi.NV_ENC_CAPS_WIDTH_MAX),
        (sampleApi.NV_ENC_CODEC_HEVC_GUID, sampleApi.NV_ENC_CAPS_WIDTH_MAX),
        (sampleApi.NV_ENC_CODEC_AV1_GUID, sampleApi.NV_ENC_CAPS_WIDTH_MAX) ] :=
  mainLoop_silent_when_every_probe_fails sampleApi (failingEncoder 12) World.start
    (fun _ _ => ⟨12, rfl⟩)

/-! ## The prober -/

/-- C2: when the probe of a codec fails (with an exception of any kind),
`DumpCapsForCodec` writes nothing, neither header nor capability line, and the
probe is the one query it issues. -/
theorem DumpCapsForCodec_failed_probe (api : NvEncApi) (enc : NvEncoder) (codec : GUID)
    (w : World) (e : Exn)
    (h : enc.GetCapabilityValue w.queries codec api.NV_ENC_CAPS_WIDTH_MAX = Except.error e) :
    (DumpCapsForCodec api enc codec w).2.out = w.out ∧
    (DumpCapsForCodec api enc codec w).2.queries
      = w.queries ++ [(codec, api.NV_ENC_CAPS_WIDTH_MAX)] := by
  cases e with
  | nvenc code => simp [DumpCapsForCodec_probe_nvenc api enc codec w code h]
  | other => simp [DumpCapsForCodec_probe_other api enc codec w h]

/-- Witness of the failed probe: H.264 on an encoder that rejects every query
with status 12. -/
theorem DumpCapsForCodec_failed_probe_witness :
    (DumpCapsForCodec sampleApi (failingEncoder 12) sampleApi.NV_ENC_CODEC_H264_GUID
      World.start).2.out = World.start.out ∧
    (DumpCapsForCodec sampleApi (failingEncoder 12) sampleApi.NV_ENC_CODEC_H264_GUID
      World.start).2.queries
      = World.start.queries ++ [(sampleApi.NV_ENC_CODEC_H264_GUID, sampleApi.NV_ENC_CAPS_WIDTH_MAX)] :=
  DumpCapsForCodec_failed_probe sampleApi (failingEncoder 12) sampleApi.NV_ENC_CODEC_H264_GUID
    World.start (Exn.nvenc 12) rfl

/-- C3, counterexample: an encoder that fails every query with status 5 and
one that fails every query with status 12 are treated alike, so whichever
status means "not applicable", the other one is swallowed too.  At the probe
`DumpCapsForCodec` returns normally with nothing written; in the sweep (the
probe answered, every later query failing) it returns normally with the bare
header; and when every query throws an exception of another type, the codec
loop of `main` ends normally with its closing message. -/
theorem fatal_query_error_is_swallowed :
    (DumpCapsForCodec sampleApi (failingEncoder 5) sampleApi.NV_ENC_CODEC_H264_GUID
      World.start).1 = Except.ok () ∧
    (DumpCapsForCodec sampleApi (failingEncoder 5) sampleApi.NV_ENC_CODEC_H264_GUID
      World.start).2.out = "" ∧
    (DumpCapsForCodec sampleApi (failingEncoder 12) sampleApi.NV_ENC_CODEC_H264_GUID
      World.start).1 = Except.ok () ∧
    (DumpCapsForCodec sampleApi (failingEncoder 12) sampleApi.NV_ENC_CODEC_H264_GUID
      World.start).2.out = "" ∧
    (DumpCapsForCodec sampleApi (probeOnlyEncoder 4096 5) sampleApi.NV_ENC_CODEC_H264_GUID
      World.start).1 = Except.ok () ∧
    (DumpCapsForCodec sampleApi (probeOnlyEncoder 4096 5) sampleApi.NV_ENC_CODEC_H264_GUID
      World.start).2.out = "\n=== Codec: H.264/AVC ===\n" ∧
    (DumpCapsForCodec sampleApi (probeOnlyEncoder 4096 12) sampleApi.NV_ENC_CODEC_H264_GUID
      World.start).1 = Except.ok () ∧
    (DumpCapsForCodec sampleApi (probeOnlyEncoder 4096 12) sampleApi.NV_ENC_CODEC_H264_GUID
      World.start).2.out = "\n=== Codec: H.264/AVC ===\n" ∧
    (mainLoop sampleApi crashingEncoder World.start).out
      = "No supported NVENC codec found.\n" :=
  ⟨rfl, rfl, rfl, rfl, rfl, rfl, rfl, rfl, rfl⟩

/-- C3, as amended: `DumpCapsForCodec` never looks at the status code.  An
`NVENCException` of any code is swallowed: thrown by the probe it skips the
codec, thrown in the sweep it skips that capability and the sweep goes on.  An
exception of any other type leaves the sweep and `DumpCapsForCodec`; the codec
loop of `main` then ignores it, whatever it is, and keeps `any` as it was. -/
theorem query_exceptions_by_type_only (api : NvEncApi) (enc : NvEncoder) (codec : GUID)
    (w : World) :
    (∀ code, enc.GetCapabilityValue w.queries codec api.NV_ENC_CAPS_WIDTH_MAX
        = Except.error (Exn.nvenc code) →
      DumpCapsForCodec api enc codec w = (Except.ok (),
        { out := w.out, queries := w.queries ++ [(codec, api.NV_ENC_CAPS_WIDTH_MAX)] })) ∧
    (∀ code cap rest, enc.GetCapabilityValue w.queries codec cap = Except.error (Exn.nvenc code) →
      sweep api enc codec (cap :: rest) w = sweep api enc codec rest
        { out := w.out, queries := w.queries ++ [(codec, cap)] }) ∧
    (enc.GetCapabilityValue w.queries codec api.NV_ENC_CAPS_WIDTH_MAX = Except.error Exn.other →
      DumpCapsForCodec api enc codec w = (Except.error Exn.other,
        { out := w.out, queries := w.queries ++ [(codec, api.NV_ENC_CAPS_WIDTH_MAX)] })) ∧
    (∀ cap rest, enc.GetCapabilityValue w.queries codec cap = Except.error Exn.other →
      sweep api enc codec (cap :: rest) w = (Except.error Exn.other,
        { out := w.out, queries := w.queries ++ [(codec, cap)] })) ∧
    (∀ any e w1, DumpCapsForCodec api enc codec w = (Except.error e, w1) →
      mainLoopStep api enc (w, any) codec = (w1, any)) := by
  refine ⟨?_, ?_, ?_, ?_, ?_⟩
  · intro code h
    exact DumpCapsForCodec_probe_nvenc api enc codec w code h
  · intro code cap rest h
    exact sweep_cons_nvenc api enc codec cap rest w code h
  · intro h
    exact DumpCapsForCodec_probe_other api enc codec w h
  · intro cap rest h
    exact sweep_cons_other api enc codec cap rest w h
  · intro any e w1 h
    simp [mainLoopStep, h]

/-- Witness of the amended C3: status 5 at the probe and in the sweep, and an
exception of another type at the probe, in the sweep and in the loop of
`main`. -/
theorem query_exceptions_by_type_only_witness :
    DumpCapsForCodec sampleApi (failingEncoder 5) sampleApi.NV_ENC_CODEC_H264_GUID World.start
      = (Except.ok (), { out := "", queries := [(sampleApi.NV_ENC_CODEC_H264_GUID, 16)] }) ∧
    sweep sampleApi (failingEncoder 5) sampleApi.NV_ENC_CODEC_H264_GUID [0, 1] World.start
      = sweep sampleApi (failingEncoder 5) sampleApi.NV_ENC_CODEC_H264_GUID [1]
          { out := "", queries := [(sampleApi.NV_ENC_CODEC_H264_GUID, 0)] } ∧
    DumpCapsForCodec sampleApi crashingEncoder sampleApi.NV_ENC_CODEC_H264_GUID World.start
      = (Except.error Exn.other,
          { out := "", queries := [(sampleApi.NV_ENC_CODEC_H264_GUID, 16)] }) ∧
    sweep sampleApi crashingEncoder sampleApi.NV_ENC_CODEC_H264_GUID [0, 1] World.start
      = (Except.error Exn.other,
          { out := "", queries := [(sampleApi.NV_ENC_CODEC_H264_GUID, 0)] }) ∧
    mainLoopStep sampleApi crashingEncoder (World.start, false) sampleApi.NV_ENC_CODEC_H264_GUID
      = ({ out := "", queries := [(sampleApi.NV_ENC_CODEC_H264_GUID, 16)] }, false) :=
  ⟨(query_exceptions_by_type_only sampleApi (failingEncoder 5)
      sampleApi.NV_ENC_CODEC_H264_GUID World.start).1 5 rfl,
   (query_exceptions_by_type_only sampleApi (failingEncoder 5)
      sampleApi.NV_ENC_CODEC_H264_GUID World.start).2.1 5 0 [1] rfl,
   (query_exceptions_by_type_only sampleApi crashingEncoder
      sampleApi.NV_ENC_CODEC_H264_GUID World.start).2.2.1 rfl,
   (query_exceptions_by_type_only sampleApi crashingEncoder
      sampleApi.NV_ENC_CODEC_H264_GUID World.start).2.2.2.1 0 [1] rfl,
   (query_exceptions_by_type_only sampleApi crashingEncoder
      sampleApi.NV_ENC_CODEC_H264_GUID World.start).2.2.2.2 false Exn.other _ rfl⟩

set_option maxRecDepth 100000

theorem codecHeader_eq (api : NvEncApi) (codec : GUID) :
    codecHeader api codec = "\n=== Codec: " ++
        (if codec = api.NV_ENC_CODEC_H264_GUID then "H.264/AVC"
          else if codec = api.NV_ENC_CODEC_HEVC_GUID then "HEVC/H.265"
          else if codec = api.NV_ENC_CODEC_AV1_GUID then "AV1" else "Unknown") ++ " ===\n" := by
  simp only [codecHeader, CodecNameFromGuid, GuidEqual_iff]

theorem sweep_lines_eq (api : NvEncApi) (enc : NvEncoder) (codec : GUID) (w : World) :
    (List.range api.NV_ENC_CAPS_EXPOSED_COUNT.toNat).filterMap (sweepLine? api enc codec w)
      = (sweepIds api).filterMap (fun id =>
          match sweepAnswer api enc codec w id.toNat with
          | Except.ok v => some ("  - " ++ leftJustify38 (capName api id) ++ " : " ++
              decodedValue api codec id v ++ "\n")
          | Except.error _ => none) := by
  rw [sweepIds, List.filterMap_map]
  apply List.filterMap_congr
  intro k _
  have hk : (Int.ofNat k).toNat = k := rfl
  simp only [Function.comp, sweepLine?, capLine, hk]

theorem sweep_lines_all_ok (api : NvEncApi) (enc : NvEncoder) (codec : GUID) (w : World)
    (hall : ∀ k, k < api.NV_ENC_CAPS_EXPOSED_COUNT.toNat →
      ∃ v, sweepAnswer api enc codec w k = Except.ok v) :
    (List.range api.NV_ENC_CAPS_EXPOSED_COUNT.toNat).filterMap (sweepLine? api enc codec w)
      = (sweepIds api).map (fun id => "  - " ++ leftJustify38 (capName api id) ++ " : " ++
          decodedValue api codec id (sweepValue api enc codec w id.toNat) ++ "\n") := by
  rw [sweepIds, List.map_map]
  apply filterMap_eq_map_of_some
  intro k hk
  obtain ⟨v, hv⟩ := hall k (List.mem_range.1 hk)
  simp [sweepLine?, sweepValue, hv, capLine]

theorem catalog_lines_of_numbering (api : NvEncApi) (codec : GUID) (val : Int → Int)
    (hnum : (kCapNames api).map Prod.fst = sweepIds api) :
    (sweepIds api).map (fun id => "  - " ++ leftJustify38 (capName api id) ++ " : " ++
        decodedValue api codec id (val id) ++ "\n")
      = (kCapNames api).map (fun e => "  - " ++ leftJustify38 e.2 ++ " : " ++
        decodedValue api codec e.1 (val e.1) ++ "\n") := by
  have hnd : ((kCapNames api).map Prod.fst).Nodup := by
    rw [hnum, sweepIds]
    exact (List.nodup_range _).map (fun a b h => Int.ofNat.inj h)
  rw [← hnum, List.map_map]
  apply List.map_congr_left
  intro e he
  simp [capName, lookup_of_mem_nodup _ hnd e he]

/-- C4, counterexample: on a header whose end marker is 56, one more than the
55 entries of the catalog, with every query answering 1, the output for H.264
is the header, the 55 catalog lines and then a 56th line for the id 55, named
`CAP_55`: a line that belongs to no catalog entry. -/
theorem extra_enumerator_adds_a_line :
    (kCapNames sampleApi56).length = 55 ∧
    (DumpCapsForCodec sampleApi56 (constEncoder 1) sampleApi56.NV_ENC_CODEC_H264_GUID
      World.start).2.queries.length = 57 ∧
    (DumpCapsForCodec sampleApi56 (constEncoder 1) sampleApi56.NV_ENC_CODEC_H264_GUID
      World.start).2.out = String.join [
        "\n=== Codec: H.264/AVC ===\n",
        "  - Max B-Frames                           : 1\n",
        "  - Supported Rate Control Modes           : CONSTQP\n",
        "  - Field Encoding                         : Interlaced field: supported\n",
        "  - Monochrome Encode                      : Supported\n",
        "  - FMO                                    : Supported\n",
        "  - Quarter-Pel ME                         : Supported\n",
        "  - BDirect Mode (H.264)                   : Supported\n",
        "  - CABAC (H.264)                          : Supported\n",
        "  - Adaptive Transform                     : Supported\n",
        "  - Stereo MVC                             : Supported\n",
        "  - Max Temporal Layers (or support flag)  : 1\n",
        "  - Hierarchical P-Frames                  : Supported\n",
        "  - Hierarchical B-Frames                  : Supported\n",
        "  - Max Level                              : Unknown(1) (1)\n",
        "  - Min Level                              : Unknown(1) (1)\n",
        "  - Separate Color Plane                   : Supported\n",
        "  - Max Width                              : 1\n",
        "  - Max Height                             : 1\n",
        "  - Temporal SVC                           : Supported\n",
        "  - Dynamic Resolution Change              : Supported\n",
        "  - Dynamic Bitrate Change                 : Supported\n",
        "  - Dynamic Force CONSTQP                  : Supported\n",
        "  - Dynamic RC Mode Change                 : Supported\n",
        "  - Subframe Readback                      : Supported\n",
        "  - Constrained Encoding                   : Supported\n",
        "  - Intra Refresh                          : Supported\n",
        "  - Custom VBV Buffer Size                 : Supported\n",
        "  - Dynamic Slice Mode                     : Supported\n",
        "  - Reference Picture Invalidation         : Supported\n",
        "  - Pre-Processing (bitmask)               : Denoise (0x1)\n",
        "  - Async Encode                           : Supported\n",
        "  - Max Macroblocks per Frame              : 1\n",
        "  - Max Macroblocks per Second             : 1 MB/s (~0.00 Mpix/s)\n",
        "  - YUV444 Encode                          : Supported\n",
        "  - Lossless Encode                        : Supported\n",
        "  - Sample Adaptive Offset (HEVC)          : Supported\n",
        "  - ME Only Mode                           : Supported for I and P\n",
        "  - Lookahead                              : Supported\n",
        "  - Temporal AQ                            : Supported\n",
        "  - 10-bit Encode                          : Supported\n",
        "  - Max LTR Frames                         : 1\n",
        "  - Weighted Prediction                    : Supported\n",
        "  - Dynamic Encoder Capacity (%)           : 1%\n",
        "  - B-frame as Reference                   : Each B-frame can be reference\n",
        "  - Emphasis Level Map                     : Supported\n",
        "  - Min Width                              : 1\n",
        "  - Min Height                             : 1\n",
        "  - Multiple Reference Frames              : Supported\n",
        "  - HEVC Alpha Layer Encode                : Supported\n",
        "  - Number of Encoder Engines              : 1\n",
        "  - Single Slice Intra Refresh             : Supported\n",
        "  - Disable Encoder State Advance          : Supported\n",
        "  - Reconstructed Frame Output             : Supported\n",
        "  - Output Block Stats                     : Supported\n",
        "  - Output Row Stats                       : Supported\n",
        "  - CAP_55                                 : Supported\n" ] :=
  ⟨rfl, rfl, rfl⟩

/-- C4, as amended: when the probe and every sweep query succeed,
`DumpCapsForCodec` returns normally and writes the codec header followed by
exactly one line per capability id from 0 to `NV_ENC_CAPS_EXPOSED_COUNT - 1`,
in increasing order, and nothing else; the line of an id shows its catalog
name, or `CAP_<id>` when the catalog has no entry for it, padded to 38
characters, and the decoded value read for it.  When the keys of the catalog,
in source order, are exactly these ids, that is one line per catalog entry, in
catalog order.  On the sample header with every query answering 1 the text for
H.264 is the 56 lines listed. -/
theorem DumpCapsForCodec_lists_every_id (api : NvEncApi) (enc : NvEncoder) (codec : GUID)
    (w : World)
    (hprobe : ∃ v0, enc.GetCapabilityValue w.queries codec api.NV_ENC_CAPS_WIDTH_MAX = Except.ok v0)
    (hall : ∀ k, k < api.NV_ENC_CAPS_EXPOSED_COUNT.toNat →
      ∃ v, sweepAnswer api enc codec w k = Except.ok v) :
    (DumpCapsForCodec api enc codec w).1 = Except.ok () ∧
    (DumpCapsForCodec api enc codec w).2.out = w.out ++ ("\n=== Codec: " ++
        (if codec = api.NV_ENC_CODEC_H264_GUID then "H.264/AVC"
          else if codec = api.NV_ENC_CODEC_HEVC_GUID then "HEVC/H.265"
          else if codec = api.NV_ENC_CODEC_AV1_GUID then "AV1" else "Unknown") ++ " ===\n") ++
      String.join ((sweepIds api).map (fun id =>
        "  - " ++ leftJustify38 (capName api id) ++ " : " ++
          decodedValue api codec id (sweepValue api enc codec w id.toNat) ++ "\n")) ∧
    ((kCapNames api).map Prod.fst = sweepIds api →
      (DumpCapsForCodec api enc codec w).2.out = w.out ++ ("\n=== Codec: " ++
        (if codec = api.NV_ENC_CODEC_H264_GUID then "H.264/AVC"
          else if codec = api.NV_ENC_CODEC_HEVC_GUID then "HEVC/H.265"
          else if codec = api.NV_ENC_CODEC_AV1_GUID then "AV1" else "Unknown") ++ " ===\n") ++
        String.join ((kCapNames api).map (fun e =>
          "  - " ++ leftJustify38 e.2 ++ " : " ++
            decodedValue api codec e.1 (sweepValue api enc codec w e.1.toNat) ++ "\n"))) ∧
    (DumpCapsForCodec sampleApi (constEncoder 1) sampleApi.NV_ENC_CODEC_H264_GUID
      World.start).2.out = String.join [
        "\n=== Codec: H.264/AVC ===\n",
        "  - Max B-Frames                           : 1\n",
        "  - Supported Rate Control Modes           : CONSTQP\n",
        "  - Field Encoding                         : Interlaced field: supported\n",
        "  - Monochrome Encode                      : Supported\n",
        "  - FMO                                    : Supported\n",
        "  - Quarter-Pel ME                         : Supported\n",
        "  - BDirect Mode (H.264)                   : Supported\n",
        "  - CABAC (H.264)                          : Supported\n",
        "  - Adaptive Transform                     : Supported\n",
        "  - Stereo MVC                             : Supported\n",
        "  - Max Temporal Layers (or support flag)  : 1\n",
        "  - Hierarchical P-Frames                  : Supported\n",
        "  - Hierarchical B-Frames                  : Supported\n",
        "  - Max Level                              : Unknown(1) (1)\n",
        "  - Min Level                              : Unknown(1) (1)\n",
        "  - Separate Color Plane                   : Supported\n",
        "  - Max Width                              : 1\n",
        "  - Max Height                             : 1\n",
        "  - Temporal SVC                           : Supported\n",
        "  - Dynamic Resolution Change              : Supported\n",
        "  - Dynamic Bitrate Change                 : Supported\n",
        "  - Dynamic Force CONSTQP                  : Supported\n",
        "  - Dynamic RC Mode Change                 : Supported\n",
        "  - Subframe Readback                      : Supported\n",
        "  - Constrained Encoding                   : Supported\n",
        "  - Intra Refresh                          : Supported\n",
        "  - Custom VBV Buffer Size                 : Supported\n",
        "  - Dynamic Slice Mode                     : Supported\n",
        "  - Reference Picture Invalidation         : Supported\n",
        "  - Pre-Processing (bitmask)               : Denoise (0x1)\n",
        "  - Async Encode                           : Supported\n",
        "  - Max Macroblocks per Frame              : 1\n",
        "  - Max Macroblocks per Second             : 1 MB/s (~0.00 Mpix/s)\n",
        "  - YUV444 Encode                          : Supported\n",
        "  - Lossless Encode                        : Supported\n",
        "  - Sample Adaptive Offset (HEVC)          : Supported\n",
        "  - ME Only Mode                           : Supported for I and P\n",
        "  - Lookahead                              : Supported\n",
        "  - Temporal AQ                            : Supported\n",
        "  - 10-bit Encode                          : Supported\n",
        "  - Max LTR Frames                         : 1\n",
        "  - Weighted Prediction                    : Supported\n",
        "  - Dynamic Encoder Capacity (%)           : 1%\n",
        "  - B-frame as Reference                   : Each B-frame can be reference\n",
        "  - Emphasis Level Map                     : Supported\n",
        "  - Min Width                              : 1\n",
        "  - Min Height                             : 1\n",
        "  - Multiple Reference Frames              : Supported\n",
        "  - HEVC Alpha Layer Encode                : Supported\n",
        "  - Number of Encoder Engines              : 1\n",
        "  - Single Slice Intra Refresh             : Supported\n",
        "  - Disable Encoder State Advance          : Supported\n",
        "  - Reconstructed Frame Output             : Supported\n",
        "  - Output Block Stats                     : Supported\n",
        "  - Output Row Stats                       : Supported\n" ] := by
  obtain ⟨v0, hprobe⟩ := hprobe
  have hne : ∀ k, k < api.NV_ENC_CAPS_EXPOSED_COUNT.toNat →
      sweepAnswer api enc codec w k ≠ Except.error Exn.other := by
    intro k hk h
    obtain ⟨v, hv⟩ := hall k hk
    rw [hv] at h
    cases h
  have hout : (DumpCapsForCodec api enc codec w).2.out = w.out ++ ("\n=== Codec: " ++
        (if codec = api.NV_ENC_CODEC_H264_GUID then "H.264/AVC"
          else if codec = api.NV_ENC_CODEC_HEVC_GUID then "HEVC/H.265"
          else if codec = api.NV_ENC_CODEC_AV1_GUID then "AV1" else "Unknown") ++ " ===\n") ++
      String.join ((sweepIds api).map (fun id =>
        "  - " ++ leftJustify38 (capName api id) ++ " : " ++
          decodedValue api codec id (sweepValue api enc codec w id.toNat) ++ "\n")) := by
    rw [DumpCapsForCodec_closed_form api enc codec w v0 hprobe hne]
    show w.out ++ codecHeader api codec ++ String.join _ = _
    rw [sweep_lines_all_ok api enc codec w hall, codecHeader_eq]
  refine ⟨?_, hout, ?_, ?_⟩
  · rw [DumpCapsForCodec_closed_form api enc codec w v0 hprobe hne]
  · intro hnum
    rw [hout, catalog_lines_of_numbering api codec
      (fun id => sweepValue api enc codec w id.toNat) hnum]
  · rfl

/-- Witness of the listing of every id: AV1 on the sample header with an
encoder that answers 2 to every query. -/
theorem DumpCapsForCodec_lists_every_id_witness :
    (DumpCapsForCodec sampleApi (constEncoder 2) sampleApi.NV_ENC_CODEC_AV1_GUID
      World.start).1 = Except.ok () ∧
    (DumpCapsForCodec sampleApi (constEncoder 2) sampleApi.NV_ENC_CODEC_AV1_GUID
      World.start).2.out = "" ++ ("\n=== Codec: " ++ "AV1" ++ " ===\n") ++
      String.join ((kCapNames sampleApi).map (fun e =>
        "  - " ++ leftJustify38 e.2 ++ " : " ++
          decodedValue sampleApi sampleApi.NV_ENC_CODEC_AV1_GUID e.1 2 ++ "\n")) :=
  ⟨(DumpCapsForCodec_lists_every_id sampleApi (constEncoder 2) sampleApi.NV_ENC_CODEC_AV1_GUID
      World.start ⟨2, rfl⟩ (fun _ _ => ⟨2, rfl⟩)).1,
   (DumpCapsForCodec_lists_every_id sampleApi (constEncoder 2) sampleApi.NV_ENC_CODEC_AV1_GUID
      World.start ⟨2, rfl⟩ (fun _ _ => ⟨2, rfl⟩)).2.2.1 rfl⟩

/-- C5: when the probe succeeds and every failure of a sweep query is an
`NVENCException` (of any status), whatever the pattern of failures,
`DumpCapsForCodec` returns normally, it has issued the probe and then one
query per id `0 .. NV_ENC_CAPS_EXPOSED_COUNT - 1` in increasing order, and it
has written the codec header followed by, for exactly those ids whose query
succeeded and in increasing order, the complete line of the id: the four
characters `  - `, the name padded to 38 characters, ` : `, the decoded value
of the answer and the line end.  A failed query contributes no character.  On
the sample header with every odd id failing the text for HEVC is the 29 lines
listed. -/
theorem sweep_skips_exactly_the_failed_queries (api : NvEncApi) (enc : NvEncoder) (codec : GUID)
    (w : World) (v0 : Int)
    (hprobe : enc.GetCapabilityValue w.queries codec api.NV_ENC_CAPS_WIDTH_MAX = Except.ok v0)
    (hfail : ∀ k e, k < api.NV_ENC_CAPS_EXPOSED_COUNT.toNat →
      sweepAnswer api enc codec w k = Except.error e → ∃ code, e = Exn.nvenc code) :
    (DumpCapsForCodec api enc codec w).1 = Except.ok () ∧
    (DumpCapsForCodec api enc codec w).2.queries = w.queries ++
      (codec, api.NV_ENC_CAPS_WIDTH_MAX) :: (sweepIds api).map (fun i => (codec, i)) ∧
    (DumpCapsForCodec api enc codec w).2.out = w.out ++ ("\n=== Codec: " ++
        (if codec = api.NV_ENC_CODEC_H264_GUID then "H.264/AVC"
          else if codec = api.NV_ENC_CODEC_HEVC_GUID then "HEVC/H.265"
          else if codec = api.NV_ENC_CODEC_AV1_GUID then "AV1" else "Unknown") ++ " ===\n") ++
      String.join ((sweepIds api).filterMap (fun id =>
        match sweepAnswer api enc codec w id.toNat with
        | Except.ok v => some ("  - " ++ leftJustify38 (capName api id) ++ " : " ++
            decodedValue api codec id v ++ "\n")
        | Except.error _ => none)) ∧
    (DumpCapsForCodec sampleApi oddFailingEncoder sampleApi.NV_ENC_CODEC_HEVC_GUID
      World.start).2.out = String.join [
        "\n=== Codec: HEVC/H.265 ===\n",
        "  - Max B-Frames                           : 1\n",
        "  - Field Encoding                         : Interlaced field: supported\n",
        "  - FMO                                    : Supported\n",
        "  - BDirect Mode (H.264)                   : Supported\n",
        "  - Adaptive Transform                     : Supported\n",
        "  - Max Temporal Layers (or support flag)  : 1\n",
        "  - Hierarchical B-Frames                  : Supported\n",
        "  - Min Level                              : Unknown(1) (1)\n",
        "  - Max Width                              : 1\n",
        "  - Temporal SVC                           : Supported\n",
        "  - Dynamic Bitrate Change                 : Supported\n",
        "  - Dynamic RC Mode Change                 : Supported\n",
        "  - Constrained Encoding                   : Supported\n",
        "  - Custom VBV Buffer Size                 : Supported\n",
        "  - Reference Picture Invalidation         : Supported\n",
        "  - Async Encode                           : Supported\n",
        "  - Max Macroblocks per Second             : 1 MB/s (~0.00 Mpix/s)\n",
        "  - Lossless Encode                        : Supported\n",
        "  - ME Only Mode                           : Supported for I and P\n",
        "  - Temporal AQ                            : Supported\n",
        "  - Max LTR Frames                         : 1\n",
        "  - Dynamic Encoder Capacity (%)           : 1%\n",
        "  - Emphasis Level Map                     : Supported\n",
        "  - Min Height                             : 1\n",
        "  - HEVC Alpha Layer Encode                : Supported\n",
        "  - Single Slice Intra Refresh             : Supported\n",
        "  - Reconstructed Frame Output             : Supported\n",
        "  - Output Row Stats                       : Supported\n" ] := by
  have hne : ∀ k, k < api.NV_ENC_CAPS_EXPOSED_COUNT.toNat →
      sweepAnswer api enc codec w k ≠ Except.error Exn.other := by
    intro k hk h
    obtain ⟨code, hc⟩ := hfail k _ hk h
    cases hc
  refine ⟨?_, ?_, ?_, ?_⟩
  · rw [DumpCapsForCodec_closed_form api enc codec w v0 hprobe hne]
  · rw [DumpCapsForCodec_closed_form api enc codec w v0 hprobe hne]
    exact queriesAfter_eq api codec w
  · rw [DumpCapsForCodec_closed_form api enc codec w v0 hprobe hne]
    show w.out ++ codecHeader api codec ++ String.join _ = _
    rw [sweep_lines_eq, codecHeader_eq]
  · rfl

/-- Witness of the sweep with failures: H.264 on the sample header with an
encoder that fails every odd id and answers 1 for every even one. -/
theorem sweep_skips_exactly_the_failed_queries_witness :
    (DumpCapsForCodec sampleApi oddFailingEncoder sampleApi.NV_ENC_CODEC_H264_GUID
      World.start).1 = Except.ok () ∧
    (DumpCapsForCodec sampleApi oddFailingEncoder sampleApi.NV_ENC_CODEC_H264_GUID
      World.start).2.queries = World.start.queries ++
      (sampleApi.NV_ENC_CODEC_H264_GUID, sampleApi.NV_ENC_CAPS_WIDTH_MAX) ::
        (sweepIds sampleApi).map (fun i => (sampleApi.NV_ENC_CODEC_H264_GUID, i)) ∧
    (DumpCapsForCodec sampleApi oddFailingEncoder sampleApi.NV_ENC_CODEC_H264_GUID
      World.start).2.out = "" ++ ("\n=== Codec: " ++ "H.264/AVC" ++ " ===\n") ++
      String.join ((sweepIds sampleApi).filterMap (fun id =>
        if id % 2 = 1 then none
        else some ("  - " ++ leftJustify38 (capName sampleApi id) ++ " : " ++
          decodedValue sampleApi sampleApi.NV_ENC_CODEC_H264_GUID id 1 ++ "\n"))) :=
  have hw := sweep_skips_exactly_the_failed_queries sampleApi oddFailingEncoder
    sampleApi.NV_ENC_CODEC_H264_GUID World.start 1 rfl (by
      intro k e _ h
      simp only [sweepAnswer, oddFailingEncoder] at h
      split at h
      · exact ⟨12, by cases h; rfl⟩
      · cases h)
  ⟨hw.1, hw.2.1, hw.2.2.1.trans rfl⟩

/-! ## The dispatcher and the decoders -/

/-- C6: for a capability id that is none of the case labels of the switch,
the decoded value is "Not supported" for raw 0, "Supported" for raw 1 and the
decimal rendering of the raw value otherwise, for every codec; so 2 gives "2"
and -2 gives "-2". -/
theorem default_decoding (api : NvEncApi) (codec : GUID) (cap v : Int)
    (h : cap ∉ caseLabels api) :
    decodedValue api codec cap v
      = (if v = 0 then "Not supported" else if v = 1 then "Supported" else decStr v) ∧
    decodedValue api codec cap 0 = "Not supported" ∧
    decodedValue api codec cap 1 = "Supported" ∧
    decodedValue api codec cap 2 = "2" ∧
    decodedValue api codec cap (-2) = "-2" := by
  simp only [caseLabels, List.mem_cons, List.mem_singleton, not_or, List.not_mem_nil,
    not_false_eq_true, and_true] at h
  obtain ⟨h1, h2, h3, h4, h5, h6, h7, h8, h9, h10, h11, h12, h13, h14, h15, h16, h17, h18⟩ := h
  have key : ∀ x : Int, decodedValue api codec cap x
      = (if x = 0 then "Not supported" else if x = 1 then "Supported" else decStr x) := by
    intro x
    simp only [decodedValue, h1, h2, h3, h4, h5, h6, h7, h8, h9, h10, h11, h12, h13, h14, h15,
      h16, h17, h18, if_false, or_self, ToSupportedNotSupported]
    by_cases hx0 : x = 0
    · simp [hx0]
    · by_cases hx1 : x = 1
      · simp [hx1]
      · simp [hx0, hx1]
  refine ⟨key v, ?_, ?_, ?_, ?_⟩
  · rw [key]; rfl
  · rw [key]; rfl
  · rw [key]; decide
  · rw [key]; decide

/-- Witness of the default decoding: the monochrome capability of the sample
header, raw value 7. -/
theorem default_decoding_witness :
    decodedValue sampleApi sampleApi.NV_ENC_CODEC_HEVC_GUID
        sampleApi.NV_ENC_CAPS_SUPPORT_MONOCHROME 7
      = (if (7 : Int) = 0 then "Not supported" else if (7 : Int) = 1 then "Supported"
          else decStr 7) ∧
    decodedValue sampleApi sampleApi.NV_ENC_CODEC_HEVC_GUID
        sampleApi.NV_ENC_CAPS_SUPPORT_MONOCHROME 0 = "Not supported" ∧
    decodedValue sampleApi sampleApi.NV_ENC_CODEC_HEVC_GUID
        sampleApi.NV_ENC_CAPS_SUPPORT_MONOCHROME 1 = "Supported" ∧
    decodedValue sampleApi sampleApi.NV_ENC_CODEC_HEVC_GUID
        sampleApi.NV_ENC_CAPS_SUPPORT_MONOCHROME 2 = "2" ∧
    decodedValue sampleApi sampleApi.NV_ENC_CODEC_HEVC_GUID
        sampleApi.NV_ENC_CAPS_SUPPORT_MONOCHROME (-2) = "-2" :=
  default_decoding sampleApi sampleApi.NV_ENC_CODEC_HEVC_GUID
    sampleApi.NV_ENC_CAPS_SUPPORT_MONOCHROME 7 (by decide)

/-- C7: with the mode numbers CONSTQP = 0, VBR = 1, CBR = 2, for every mask
`DecodeRateControlModes` returns the names of the modes among CONSTQP, VBR,
CBR whose bit `1 << mode` is set, in that order, joined by `", "`, and "None"
when none of the three bits is set; mask 0 gives "None", the CBR bit alone
gives "CBR", the CONSTQP and VBR bits give "CONSTQP, VBR". -/
theorem DecodeRateControlModes_eq_spec (api : NvEncApi) (mask : Int)
    (h0 : api.NV_ENC_PARAMS_RC_CONSTQP = 0) (h1 : api.NV_ENC_PARAMS_RC_VBR = 1)
    (h2 : api.NV_ENC_PARAMS_RC_CBR = 2) :
    DecodeRateControlModes api mask = rateControlSpec mask ∧
    DecodeRateControlModes api 0 = "None" ∧
    DecodeRateControlModes api 4 = "CBR" ∧
    DecodeRateControlModes api 3 = "CONSTQP, VBR" := by
  have key : ∀ m : Int, DecodeRateControlModes api m = rateControlSpec m := by
    intro m
    simp only [DecodeRateControlModes, h0, h1, h2, List.foldl, intAnd_bit m 0 (by norm_num),
      intAnd_bit m 1 (by norm_num), intAnd_bit m 2 (by norm_num), rateControlSpec,
      rateControlNames, List.filter]
    cases (toU32 m).testBit 0 <;> cases (toU32 m).testBit 1 <;> cases (toU32 m).testBit 2 <;>
      simp [appendTerm] <;> decide
  refine ⟨key mask, ?_, ?_, ?_⟩
  · rw [key]; decide
  · rw [key]; decide
  · rw [key]; decide

/-- Witness of the rate-control decoding: the sample header, mask 6. -/
theorem DecodeRateControlModes_eq_spec_witness :
    DecodeRateControlModes sampleApi 6 = rateControlSpec 6 ∧
    DecodeRateControlModes sampleApi 0 = "None" ∧
    DecodeRateControlModes sampleApi 4 = "CBR" ∧
    DecodeRateControlModes sampleApi 3 = "CONSTQP, VBR" :=
  DecodeRateControlModes_eq_spec sampleApi 6 rfl rfl rfl

/-- C8: for every mask `DecodePreprocFlags` returns "None" for 0 and otherwise
the `", "`-joined names of the set bits among bit 0 "Denoise", bit 1 "Resize",
bit 2 "Deinterlace", bit 3 "Adaptive Transform/EdgeEnhance", bit 4
"Color Conversion", in that order, followed by one term `Other(0x<h>)` exactly
when the mask with its five low bits cleared is not zero, `<h>` being the
lowercase hexadecimal of that residual as a 32-bit unsigned value; 0b10001
gives "Denoise, Color Conversion" and 0x80 gives "Other(0x80)". -/
theorem DecodePreprocFlags_eq_spec (mask : Int) :
    DecodePreprocFlags mask = preprocSpec mask ∧
    DecodePreprocFlags 0 = "None" ∧
    DecodePreprocFlags 17 = "Denoise, Color Conversion" ∧
    DecodePreprocFlags 128 = "Other(0x80)" := by
  refine ⟨?_, by decide, by decide, by decide⟩
  unfold DecodePreprocFlags preprocSpec
  by_cases h0 : mask = 0
  · simp [h0]
  · simp only [h0, if_false]
    have hu := preproc_unknown mask
    have hz : (intAnd mask (intNot (preprocBits.foldl (fun k b => intOr k (intShl 1 b.1)) 0)) != 0)
        = decide (preprocResidual mask ≠ 0) := by
      rw [← hu]
      simp only [intAnd, toU32_ofU32, bne_iff_ne, ne_eq, decide_not]
      rw [Bool.eq_iff_iff]
      simp [ofU32_eq_zero_iff]
    simp only [hz, hexStr, hu]
    simp only [preprocBits, List.foldl, intAnd_bit mask 0 (by norm_num),
      intAnd_bit mask 1 (by norm_num), intAnd_bit mask 2 (by norm_num),
      intAnd_bit mask 3 (by norm_num), intAnd_bit mask 4 (by norm_num), preprocTerms, List.filter]
    simp only [String.append_assoc]
    generalize "Other(0x" ++ (String.mk (Nat.toDigits 16 (preprocResidual mask)) ++ ")") = other
    by_cases hr : preprocResidual mask = 0 <;>
    cases (toU32 mask).testBit 0 <;> cases (toU32 mask).testBit 1 <;>
    cases (toU32 mask).testBit 2 <;> cases (toU32 mask).testBit 3 <;>
    cases (toU32 mask).testBit 4 <;>
      simp [appendTerm, hr, String.intercalate, String.intercalate.go, String.append_assoc]

/-- C9: for the two level capabilities, every codec and every raw value `v`,
the decoded value is the level name of the codec and `v`, then `" ("`, the
decimal of `v` and `")"`; H.264 with 41 gives "4.1 (41)", HEVC with 63 gives
"2.1 (63)", AV1 with 0 gives "2.0 (0)" and H.264 with 999 gives
"Unknown(999) (999)".  The case labels of the switch are pairwise different
and so are the three codec GUIDs. -/
theorem level_caps_decoding (api : NvEncApi) (codec : GUID) (cap v : Int)
    (hlab : (caseLabels api).Nodup)
    (hg : [api.NV_ENC_CODEC_H264_GUID, api.NV_ENC_CODEC_HEVC_GUID,
      api.NV_ENC_CODEC_AV1_GUID].Nodup)
    (hcap : cap = api.NV_ENC_CAPS_LEVEL_MAX ∨ cap = api.NV_ENC_CAPS_LEVEL_MIN) :
    decodedValue api codec cap v = DecodeLevel api codec v ++ " (" ++ decStr v ++ ")" ∧
    decodedValue api api.NV_ENC_CODEC_H264_GUID cap 41 = "4.1 (41)" ∧
    decodedValue api api.NV_ENC_CODEC_HEVC_GUID cap 63 = "2.1 (63)" ∧
    decodedValue api api.NV_ENC_CODEC_AV1_GUID cap 0 = "2.0 (0)" ∧
    decodedValue api api.NV_ENC_CODEC_H264_GUID cap 999 = "Unknown(999) (999)" := by
  obtain ⟨e21, e31, e32⟩ := guid_tests api hg
  have l1 : DecodeLevel api api.NV_ENC_CODEC_H264_GUID 41 = "4.1" := by
    simp only [DecodeLevel, GuidEqual_self, if_true]; rfl
  have l2 : DecodeLevel api api.NV_ENC_CODEC_HEVC_GUID 63 = "2.1" := by
    simp only [DecodeLevel, e21, GuidEqual_self, if_true, Bool.false_eq_true, if_false]; rfl
  have l3 : DecodeLevel api api.NV_ENC_CODEC_AV1_GUID 0 = "2.0" := by
    have h := DecodeLevel_av1_in_range api _ 0 e31 e32 (GuidEqual_self _) (by decide)
    have h' : av1[(0 : Int).toNat]? = some "2.0" := rfl
    rw [h] at h'
    exact Option.some.inj h'
  have l4 : DecodeLevel api api.NV_ENC_CODEC_H264_GUID 999 = "Unknown(999)" := by
    simp only [DecodeLevel, GuidEqual_self, if_true]; rfl
  refine ⟨decodedValue_level api codec cap v hlab hcap, ?_, ?_, ?_, ?_⟩
  · rw [decodedValue_level api _ cap 41 hlab hcap, l1]; decide
  · rw [decodedValue_level api _ cap 63 hlab hcap, l2]; decide
  · rw [decodedValue_level api _ cap 0 hlab hcap, l3]; decide
  · rw [decodedValue_level api _ cap 999 hlab hcap, l4]; decide
/-- Witness of the level decoding: the max-level capability of the sample
header, HEVC, raw value 93. -/
theorem level_caps_decoding_witness :
    decodedValue sampleApi sampleApi.NV_ENC_CODEC_HEVC_GUID sampleApi.NV_ENC_CAPS_LEVEL_MAX 93
      = DecodeLevel sampleApi sampleApi.NV_ENC_CODEC_HEVC_GUID 93 ++ " (" ++ decStr 93 ++ ")" ∧
    decodedValue sampleApi sampleApi.NV_ENC_CODEC_H264_GUID sampleApi.NV_ENC_CAPS_LEVEL_MAX 41
      = "4.1 (41)" ∧
    decodedValue sampleApi sampleApi.NV_ENC_CODEC_HEVC_GUID sampleApi.NV_ENC_CAPS_LEVEL_MAX 63
      = "2.1 (63)" ∧
    decodedValue sampleApi sampleApi.NV_ENC_CODEC_AV1_GUID sampleApi.NV_ENC_CAPS_LEVEL_MAX 0
      = "2.0 (0)" ∧
    decodedValue sampleApi sampleApi.NV_ENC_CODEC_H264_GUID sampleApi.NV_ENC_CAPS_LEVEL_MAX 999
      = "Unknown(999) (999)" :=
  level_caps_decoding sampleApi sampleApi.NV_ENC_CODEC_HEVC_GUID sampleApi.NV_ENC_CAPS_LEVEL_MAX
    93 (by decide) (by decide) (Or.inl rfl)

/-- C10: `DecodeLevel` is total and falls back exactly on a table miss.  With
three different codec GUIDs, for every codec and every integer code the result
is `Unknown(<code>)` if and only if the code is absent from the codec's table:
for H.264 not one of its 20 keys, for HEVC not one of its 13 keys, for AV1
outside `[0, 24)`, and for any other codec always.  When the AV1 vector is
read, the index lies inside it: the checked read at that index succeeds and
gives the result. -/
theorem DecodeLevel_unknown_iff (api : NvEncApi) (codec : GUID) (val : Int)
    (hg : [api.NV_ENC_CODEC_H264_GUID, api.NV_ENC_CODEC_HEVC_GUID,
      api.NV_ENC_CODEC_AV1_GUID].Nodup) :
    (codec = api.NV_ENC_CODEC_H264_GUID →
      (DecodeLevel api codec val = "Unknown(" ++ decStr val ++ ")" ↔
        val ∉ [9, 10, 11, 12, 13, 20, 21, 22, 30, 31, 32, 40, 41, 42, 50, 51, 52, 60, 61, 62])) ∧
    (codec = api.NV_ENC_CODEC_HEVC_GUID →
      (DecodeLevel api codec val = "Unknown(" ++ decStr val ++ ")" ↔
        val ∉ [30, 60, 63, 90, 93, 120, 123, 150, 153, 156, 180, 183, 186])) ∧
    (codec = api.NV_ENC_CODEC_AV1_GUID →
      (DecodeLevel api codec val = "Unknown(" ++ decStr val ++ ")" ↔ ¬ (0 ≤ val ∧ val < 24))) ∧
    (codec ≠ api.NV_ENC_CODEC_H264_GUID → codec ≠ api.NV_ENC_CODEC_HEVC_GUID →
      codec ≠ api.NV_ENC_CODEC_AV1_GUID →
      DecodeLevel api codec val = "Unknown(" ++ decStr val ++ ")") ∧
    (codec = api.NV_ENC_CODEC_AV1_GUID → 0 ≤ val → val < 24 →
      av1[val.toNat]? = some (DecodeLevel api codec val)) := by
  obtain ⟨e21, e31, e32⟩ := guid_tests api hg
  refine ⟨?_, ?_, ?_, ?_, ?_⟩
  · rintro rfl
    simp only [DecodeLevel, GuidEqual_self, if_true]
    exact table_branch h264 val h264_hit
  · rintro rfl
    simp only [DecodeLevel, e21, GuidEqual_self, if_true, Bool.false_eq_true, if_false]
    exact table_branch hevc val hevc_hit
  · rintro rfl
    constructor
    · intro h hr
      have hsome := DecodeLevel_av1_in_range api _ val e31 e32 (GuidEqual_self _) hr
      have hlt : val.toNat < 24 := by omega
      have hv : Int.ofNat val.toNat = val := by simp [Int.toNat_of_nonneg hr.1]
      have := (av1_hit ⟨val.toNat, hlt⟩).1
      simp only [hv] at this
      rw [hsome, h] at this
      exact this rfl
    · intro hr
      have hr' : ¬ (0 ≤ val ∧ val < (av1.length : Int)) := hr
      simp only [DecodeLevel, e31, e32, GuidEqual_self, if_true, Bool.false_eq_true, if_false,
        dif_neg hr']
  · intro n1 n2 n3
    have f1 : GuidEqual codec api.NV_ENC_CODEC_H264_GUID = false := by
      rw [Bool.eq_false_iff, Ne, GuidEqual_iff]; exact n1
    have f2 : GuidEqual codec api.NV_ENC_CODEC_HEVC_GUID = false := by
      rw [Bool.eq_false_iff, Ne, GuidEqual_iff]; exact n2
    have f3 : GuidEqual codec api.NV_ENC_CODEC_AV1_GUID = false := by
      rw [Bool.eq_false_iff, Ne, GuidEqual_iff]; exact n3
    simp only [DecodeLevel, f1, f2, f3, Bool.false_eq_true, if_false]
  · rintro rfl h0 h24
    exact DecodeLevel_av1_in_range api _ val e31 e32 (GuidEqual_self _) ⟨h0, h24⟩

/-- Witness of the fallback rule: the sample header, HEVC, code 64. -/
theorem DecodeLevel_unknown_iff_witness :
    DecodeLevel sampleApi sampleApi.NV_ENC_CODEC_HEVC_GUID 64 = "Unknown(" ++ decStr 64 ++ ")" ↔
      (64 : Int) ∉ [30, 60, 63, 90, 93, 120, 123, 150, 153, 156, 180, 183, 186] :=
  (DecodeLevel_unknown_iff sampleApi sampleApi.NV_ENC_CODEC_HEVC_GUID 64 (by decide)).2.1 rfl

/-! ## Catalog names -/

theorem lookup_some_mem (l : List (Int × String)) (k : Int) (s : String)
    (h : l.lookup k = some s) : (k, s) ∈ l := by
  induction l with
  | nil => simp [List.lookup] at h
  | cons a l ih =>
    obtain ⟨k', s'⟩ := a
    by_cases hk : k = k'
    · subst hk
      simp [List.lookup] at h
      simp [h]
    · have hb : (k == k') = false := by simpa using hk
      simp only [List.lookup, hb] at h
      exact List.mem_cons_of_mem _ (ih h)

theorem kCapNames_names (api : NvEncApi) :
    (kCapNames api).map Prod.snd = (kCapNames sampleApi).map Prod.snd := rfl

theorem catalog_names_short : ∀ s ∈ (kCapNames sampleApi).map Prod.snd, s.length ≤ 38 := by
  decide

theorem decStr_length_le (v : Int) (h : -2 ^ 31 ≤ v ∧ v < 2 ^ 31) : (decStr v).length ≤ 11 := by
  have hn : v.natAbs < 10 ^ 10 := by omega
  have hd : (Nat.toDigits 10 v.natAbs).length ≤ 10 :=
    Nat.toDigitsCore_length 10 (by decide) (v.natAbs + 1) v.natAbs 10 hn (by decide)
  have hs : (String.mk (Nat.toDigits 10 v.natAbs)).length ≤ 10 := hd
  unfold decStr
  rw [String.length_append]
  split
  · have : ("-" : String).length = 1 := by decide
    omega
  · have : ("" : String).length = 0 := by decide
    omega

theorem capName_length_le (api : NvEncApi) (capId : Int) (h : -2 ^ 31 ≤ capId ∧ capId < 2 ^ 31) :
    (capName api capId).length ≤ 38 := by
  unfold capName
  cases hl : (kCapNames api).lookup capId with
  | some s =>
    have hmem : s ∈ (kCapNames api).map Prod.snd :=
      List.mem_map.2 ⟨(capId, s), lookup_some_mem _ _ _ hl, rfl⟩
    rw [kCapNames_names] at hmem
    exact catalog_names_short s hmem
  | none =>
    show ("CAP_" ++ decStr capId).length ≤ 38
    rw [String.length_append]
    have := decStr_length_le capId h
    have : ("CAP_" : String).length = 4 := by decide
    omega

theorem leftJustify38_length (s : String) (h : s.length ≤ 38) : (leftJustify38 s).length = 38 := by
  unfold leftJustify38
  rw [String.length_append]
  have : (String.mk (List.replicate (38 - s.length) ' ')).length = 38 - s.length :=
    List.length_replicate _ _
  omega

/-! ## Binary64 rounding of the throughput figure -/

theorem divRoundEven_spec (x b : Nat) (hb : 0 < b) :
    2 * (divRoundEven x b * b) ≤ 2 * x + b ∧ 2 * x ≤ 2 * (divRoundEven x b * b) + b := by
  have h1 := Nat.div_add_mod x b
  have h2 := Nat.mod_lt x hb
  unfold divRoundEven
  simp only
  generalize x / b = q at *
  generalize x % b = r at *
  have e1 : (q + 1) * b = b * q + b := by ring
  have e2 : q * b = b * q := by ring
  generalize hbq : b * q = z at *
  split
  · rw [e2]; omega
  · split
    · rw [e1]; omega
    · split
      · rw [e2]; omega
      · rw [e1]; omega

theorem divRoundEven_eq (y P h : Nat) (hlo : P * (2 * h) < 2 * y + P)
    (hhi : 2 * y < P * (2 * h + 1)) : divRoundEven y P = h := by
  have hP : 0 < P := by
    rcases Nat.eq_zero_or_pos P with h0 | h0
    · subst h0; simp at hhi
    · exact h0
  have h1 := Nat.div_add_mod y P
  have h2 := Nat.mod_lt y hP
  unfold divRoundEven
  simp only
  generalize y / P = q at *
  generalize y % P = r at *
  -- q ≤ h
  have hq_le : q ≤ h := by
    by_contra hc
    have : h + 1 ≤ q := by omega
    have := Nat.mul_le_mul_left P this
    have e : P * (2 * h + 1) = 2 * (P * h) + P := by ring
    have e' : P * (h + 1) = P * h + P := by ring
    omega
  have hq_ge : h ≤ q + 1 := by
    by_contra hc
    have : q + 2 ≤ h := by omega
    have := Nat.mul_le_mul_left P this
    have e : P * (2 * h) = 2 * (P * h) := by ring
    have e' : P * (q + 2) = P * q + 2 * P := by ring
    omega
  have hcase : h = q ∨ h = q + 1 := by omega
  rcases hcase with rfl | rfl
  · have e : P * (2 * h) = 2 * (P * h) := by ring
    have e' : P * (2 * h + 1) = 2 * (P * h) + P := by ring
    have : 2 * r < P := by omega
    simp [this]
  · have e : P * (2 * (q + 1)) = 2 * (P * q) + 2 * P := by ring
    have e' : P * (2 * (q + 1) + 1) = 2 * (P * q) + 3 * P := by ring
    have h3 : ¬ 2 * r < P := by omega
    have h4 : P < 2 * r := by omega
    simp [h3, h4]

theorem fracBits_spec (a b s0 : Nat) (hs0 : s0 < 1075) (h : 2 ^ 52 * b ≤ a * 2 ^ s0) :
    2 ^ 52 * b ≤ a * 2 ^ fracBits a b := by
  unfold fracBits
  cases hf : (List.range 1075).find? (fun s => decide (2 ^ 52 * b ≤ a * 2 ^ s)) with
  | none =>
    have := List.find?_eq_none.1 hf s0 (List.mem_range.2 hs0)
    simp at this
    omega
  | some s =>
    have := List.find?_some hf
    simpa using this

theorem divRoundEven_zero (P : Nat) (hP : 0 < P) : divRoundEven 0 P = 0 := by
  simp [divRoundEven, hP]

theorem mpixHundredths_eq (v : Int) (h32 : -2 ^ 31 ≤ v ∧ v < 2 ^ 31) :
    mpixHundredths v = ((v * 256).natAbs + 5000) / 10000 := by
  unfold mpixHundredths
  simp only
  generalize ha : (v * 256).natAbs = a
  by_cases ha0 : a = 0
  · subst ha0
    simp [divRoundEven_zero, Nat.two_pow_pos]
  · have ha1 : 1 ≤ a := by omega
    have ha2 : a ≤ 2 ^ 39 := by omega
    have ha3 : ∃ w, a = 256 * w := ⟨v.natAbs, by omega⟩
    obtain ⟨w, hw⟩ := ha3
    have hs := fracBits_spec a 1000000 72 (by norm_num) (by
      have : a * 2 ^ 72 ≥ 1 * 2 ^ 72 := Nat.mul_le_mul_right _ ha1
      omega)
    generalize fracBits a 1000000 = s at *
    have hPpos : 0 < 2 ^ s := Nat.two_pow_pos s
    generalize 2 ^ s = P at *
    have hm := divRoundEven_spec (a * P) 1000000 (by norm_num)
    generalize divRoundEven (a * P) 1000000 = m at *
    have haP : a * P ≤ 2 ^ 39 * P := Nat.mul_le_mul_right P ha2
    set h := (a + 5000) / 10000 with hh
    have hlo : 10000 * h + 8 ≤ a + 5000 := by omega
    have hhi : a + 5000 + 8 ≤ 10000 * h + 10000 := by omega
    have k1 : (10000 * h + 8) * P ≤ (a + 5000) * P := Nat.mul_le_mul_right P hlo
    have k2 : (a + 5000 + 8) * P ≤ (10000 * h + 10000) * P := Nat.mul_le_mul_right P hhi
    have e1 : (10000 * h + 8) * P = 10000 * (P * h) + 8 * P := by ring
    have e2 : (a + 5000) * P = a * P + 5000 * P := by ring
    have e3 : (a + 5000 + 8) * P = a * P + 5008 * P := by ring
    have e4 : (10000 * h + 10000) * P = 10000 * (P * h) + 10000 * P := by ring
    rw [e1, e2] at k1
    rw [e3, e4] at k2
    apply divRoundEven_eq
    · have e : P * (2 * h) = 2 * (P * h) := by ring
      rw [e]
      generalize P * h = Y at *
      generalize a * P = X at *
      omega
    · have e : P * (2 * h + 1) = 2 * (P * h) + P := by ring
      rw [e]
      generalize P * h = Y at *
      generalize a * P = X at *
      omega

theorem mpixStr_eq (v : Int) (h32 : -2 ^ 31 ≤ v ∧ v < 2 ^ 31) : mpixStr v = fixed2MpixStr v := by
  unfold mpixStr fixed2MpixStr
  rw [mpixHundredths_eq v h32]

theorem two_digits : ∀ k, k < 100 →
    (if k < 10 then "0" else "") ++ toString k
      = String.mk [Nat.digitChar (k / 10), Nat.digitChar (k % 10)] := by
  decide

/-! ## Last characters of the decoded values -/

theorem toDigitsCore_append (b : Nat) : ∀ (f n : Nat) (ds : List Char),
    Nat.toDigitsCore b f n ds = Nat.toDigitsCore b f n [] ++ ds := by
  intro f
  induction f with
  | zero => intro n ds; simp [Nat.toDigitsCore]
  | succ f ih =>
    intro n ds
    simp only [Nat.toDigitsCore]
    split
    · simp
    · rw [ih (n / b) (Nat.digitChar (n % b) :: ds), ih (n / b) [Nat.digitChar (n % b)]]
      simp

theorem toDigits_last (b n : Nat) : ∃ l, Nat.toDigits b n = l ++ [Nat.digitChar (n % b)] := by
  simp only [Nat.toDigits, Nat.toDigitsCore]
  split
  · exact ⟨[], rfl⟩
  · exact ⟨_, toDigitsCore_append b n (n / b) [Nat.digitChar (n % b)]⟩

theorem digitChar_not_mark : ∀ k, k < 16 → Nat.digitChar k ≠ ')' ∧ Nat.digitChar k ≠ 's' := by
  decide

theorem decStr_last (v : Int) :
    ∃ l c, (decStr v).data = l ++ [c] ∧ c ≠ ')' ∧ c ≠ 's' := by
  obtain ⟨l, hl⟩ := toDigits_last 10 v.natAbs
  have hk := digitChar_not_mark (v.natAbs % 10) (by omega)
  refine ⟨(if v < 0 then "-" else "").data ++ l, Nat.digitChar (v.natAbs % 10), ?_, hk.1, hk.2⟩
  simp [decStr, hl]

theorem hexStr_last (v : Int) :
    ∃ l c, (hexStr v).data = l ++ [c] ∧ c ≠ ')' ∧ c ≠ 's' := by
  obtain ⟨l, hl⟩ := toDigits_last 16 (toU32 v)
  have hk := digitChar_not_mark (toU32 v % 16) (by omega)
  exact ⟨l, Nat.digitChar (toU32 v % 16), by simp [hexStr, hl], hk.1, hk.2⟩

theorem not_endsWithMpix_of_last (s : String) (l : List Char) (c : Char)
    (h : s.data = l ++ [c]) (hc : c ≠ ')') : ¬ endsWithMpix s := by
  rintro ⟨p, hp⟩
  rw [h] at hp
  have hr := congrArg List.reverse hp
  have e : (" Mpix/s)" : String).data = [' ', 'M', 'p', 'i', 'x', '/', 's', ')'] := rfl
  rw [e] at hr
  simp only [List.reverse_append, List.reverse_cons, List.reverse_nil, List.nil_append,
    List.cons_append, List.singleton_append] at hr
  injection hr with h1 _
  exact hc h1.symm

theorem not_endsWithMpix_of_last_two (s : String) (l : List Char) (c : Char)
    (h : s.data = l ++ [c, ')']) (hc : c ≠ 's') : ¬ endsWithMpix s := by
  rintro ⟨p, hp⟩
  rw [h] at hp
  have hr := congrArg List.reverse hp
  have e : (" Mpix/s)" : String).data = [' ', 'M', 'p', 'i', 'x', '/', 's', ')'] := rfl
  rw [e] at hr
  simp only [List.reverse_append, List.reverse_cons, List.reverse_nil, List.nil_append,
    List.cons_append, List.singleton_append] at hr
  injection hr with _ h2
  injection h2 with h3 _
  exact hc h3.symm

theorem decStr_no_mpix (v : Int) : ¬ endsWithMpix (decStr v) := by
  obtain ⟨l, c, h, hc, _⟩ := decStr_last v
  exact not_endsWithMpix_of_last _ l c h hc

theorem rc_no_mpix (api : NvEncApi) (v : Int) : ¬ endsWithMpix (DecodeRateControlModes api v) := by
  simp only [DecodeRateControlModes, List.foldl]
  generalize (intAnd v (intShl 1 api.NV_ENC_PARAMS_RC_CONSTQP) != 0) = b0
  generalize (intAnd v (intShl 1 api.NV_ENC_PARAMS_RC_VBR) != 0) = b1
  generalize (intAnd v (intShl 1 api.NV_ENC_PARAMS_RC_CBR) != 0) = b2
  cases b0 <;> cases b1 <;> cases b2 <;> decide

theorem decodedValue_no_mpix (api : NvEncApi) (codec : GUID) (cap v : Int)
    (hcap : cap ≠ api.NV_ENC_CAPS_MB_PER_SEC_MAX) :
    ¬ endsWithMpix (decodedValue api codec cap v) := by
  unfold decodedValue
  split
  · exact rc_no_mpix api v
  split
  · unfold DecodeFieldEncoding; split_ifs <;> decide
  split
  · unfold DecodeBRefMode; split_ifs <;> decide
  split
  · unfold DecodeMeOnlyMode; split_ifs <;> decide
  split
  · obtain ⟨l, c, h, _, hc⟩ := hexStr_last v
    exact not_endsWithMpix_of_last_two _ ((DecodePreprocFlags v).data ++ " (0x".data ++ l) c
      (by simp [h]) hc
  split
  · obtain ⟨l, c, h, _, hc⟩ := decStr_last v
    exact not_endsWithMpix_of_last_two _ ((DecodeLevel api codec v).data ++ " (".data ++ l) c
      (by simp [h]) hc
  split
  · obtain ⟨l, c, h, _, _⟩ := decStr_last v
    exact not_endsWithMpix_of_last _ ((decStr v).data) '%' (by simp) (by decide)
  split
  · exact decStr_no_mpix v
  · split
    · unfold ToSupportedNotSupported; split_ifs <;> decide
    · exact decStr_no_mpix v

/-! ## Further facts on the decoders -/

theorem DecodeRateControlModes_spec (api : NvEncApi) (mask : Int)
    (h0 : api.NV_ENC_PARAMS_RC_CONSTQP = 0) (h1 : api.NV_ENC_PARAMS_RC_VBR = 1)
    (h2 : api.NV_ENC_PARAMS_RC_CBR = 2) :
    DecodeRateControlModes api mask = rateControlSpec mask := by
  simp only [DecodeRateControlModes, h0, h1, h2, List.foldl, intAnd_bit mask 0 (by norm_num),
    intAnd_bit mask 1 (by norm_num), intAnd_bit mask 2 (by norm_num), rateControlSpec,
    rateControlNames, List.filter]
  cases (toU32 mask).testBit 0 <;> cases (toU32 mask).testBit 1 <;>
    cases (toU32 mask).testBit 2 <;> simp [appendTerm] <;> decide

theorem toU32_intAnd_seven (m : Int) : toU32 (intAnd m 7) = toU32 m % 8 := by
  have h7 : toU32 7 = 2 ^ 3 - 1 := by decide
  rw [intAnd, toU32_ofU32, h7, Nat.and_pow_two_sub_one_eq_mod]
  have := toU32_lt m
  omega

theorem rateControlSpec_cases (m : Int) :
    rateControlSpec m ∈ ["None", "CBR", "VBR", "VBR, CBR", "CONSTQP", "CONSTQP, CBR",
      "CONSTQP, VBR", "CONSTQP, VBR, CBR"] := by
  simp only [rateControlSpec, rateControlNames, List.filter]
  cases (toU32 m).testBit 0 <;> cases (toU32 m).testBit 1 <;>
    cases (toU32 m).testBit 2 <;> decide

theorem av1_formula : ∀ n : Fin 24,
    av1[n.val]? = some (decStr (2 + Int.ofNat n.val / 4) ++ "." ++ decStr (Int.ofNat n.val % 4)) := by
  decide

theorem h264_formula : ∀ c ∈ h264.map Prod.fst, c ≠ 9 →
    h264.lookup c = some (decStr (c / 10) ++ "." ++ decStr (c % 10)) := by
  decide

theorem hevc_formula : ∀ c ∈ hevc.map Prod.fst, c % 3 = 0 ∧
    hevc.lookup c = some (decStr (c / 30) ++ "." ++ decStr (c % 30 / 3)) := by
  decide

/-! ## The remaining capabilities and decoders -/

/-- C11: for the macroblocks-per-second capability and every 32-bit raw value
`v`, the decoded value is `v` in decimal, then ` MB/s (~`, the throughput
`v * 256 / 1000000` and ` Mpix/s)`.  The throughput computed in binary64 and
written with `std::fixed << std::setprecision(2)` is exactly the quotient
rounded to the nearest hundredth `h / 100`, written with two decimal places;
raw 100000 gives "100000" and "25.60".  The text is the same for every codec,
and no other capability id has a decoded value ending in ` Mpix/s)`. -/
theorem throughput_decoding (api : NvEncApi) (codec : GUID) (v : Int)
    (hlab : (caseLabels api).Nodup) (h32 : -2 ^ 31 ≤ v ∧ v < 2 ^ 31) :
    decodedValue api codec api.NV_ENC_CAPS_MB_PER_SEC_MAX v
      = decStr v ++ " MB/s (~" ++ fixed2MpixStr v ++ " Mpix/s)" ∧
    (∃ h : Nat, (h : Int) * 10000 - 5000 < |v| * 256 ∧ |v| * 256 < (h : Int) * 10000 + 5000 ∧
      fixed2MpixStr v = (if v < 0 then "-" else "") ++ toString (h / 100) ++ "." ++
        String.mk [Nat.digitChar (h % 100 / 10), Nat.digitChar (h % 10)]) ∧
    decodedValue api codec api.NV_ENC_CAPS_MB_PER_SEC_MAX 100000
      = "100000 MB/s (~25.60 Mpix/s)" ∧
    (∀ codec', decodedValue api codec' api.NV_ENC_CAPS_MB_PER_SEC_MAX v
      = decodedValue api codec api.NV_ENC_CAPS_MB_PER_SEC_MAX v) ∧
    endsWithMpix (decodedValue api codec api.NV_ENC_CAPS_MB_PER_SEC_MAX v) ∧
    (∀ cap x, cap ≠ api.NV_ENC_CAPS_MB_PER_SEC_MAX →
      ¬ endsWithMpix (decodedValue api codec cap x)) := by
  have key : ∀ (c : GUID) (x : Int), decodedValue api c api.NV_ENC_CAPS_MB_PER_SEC_MAX x
      = decStr x ++ " MB/s (~" ++ mpixStr x ++ " Mpix/s)" := by
    intro c x
    have h2 := List.nodup_reverse.2 hlab
    simp only [caseLabels, List.reverse_cons, List.reverse_nil, List.nil_append, List.cons_append,
      List.nodup_cons, List.mem_cons, List.mem_singleton, not_or,
      List.not_mem_nil, not_false_eq_true, List.nodup_nil, and_true] at h2
    simp [decodedValue, h2]
  refine ⟨?_, ?_, ?_, ?_, ?_, ?_⟩
  · rw [key, mpixStr_eq v h32]
  · refine ⟨((v * 256).natAbs + 5000) / 10000, ?_, ?_, ?_⟩
    · have e : |v| * 256 = ((v * 256).natAbs : Int) := by
        rw [Int.natCast_natAbs, abs_mul]; norm_num
      have hw : ∃ w : Nat, (v * 256).natAbs = 256 * w := ⟨v.natAbs, by omega⟩
      obtain ⟨w, hw⟩ := hw
      rw [e]
      omega
    · have e : |v| * 256 = ((v * 256).natAbs : Int) := by
        rw [Int.natCast_natAbs, abs_mul]; norm_num
      have hw : ∃ w : Nat, (v * 256).natAbs = 256 * w := ⟨v.natAbs, by omega⟩
      obtain ⟨w, hw⟩ := hw
      rw [e]
      omega
    · unfold fixed2MpixStr
      simp only
      generalize ((v * 256).natAbs + 5000) / 10000 = h
      have ht := two_digits (h % 100) (Nat.mod_lt _ (by norm_num))
      have e10 : h % 100 % 10 = h % 10 := by omega
      rw [e10] at ht
      rw [String.append_assoc _ (if h % 100 < 10 then "0" else "") _, ht]
  · rw [key, mpixStr_eq 100000 (by norm_num)]
    decide
  · intro codec'
    rw [key, key]
  · rw [key]
    exact ⟨(decStr v ++ " MB/s (~" ++ mpixStr v).data, by simp⟩
  · intro cap x hcap
    exact decodedValue_no_mpix api codec cap x hcap

/-- Witness of the throughput decoding: the sample header, H.264, raw value
123456. -/
theorem throughput_decoding_witness :
    decodedValue sampleApi sampleApi.NV_ENC_CODEC_H264_GUID
        sampleApi.NV_ENC_CAPS_MB_PER_SEC_MAX 123456
      = decStr 123456 ++ " MB/s (~" ++ fixed2MpixStr 123456 ++ " Mpix/s)" :=
  (throughput_decoding sampleApi sampleApi.NV_ENC_CODEC_H264_GUID 123456 (by decide)
    (by norm_num)).1

/-- C12: the name lookup is total.  For every integer id, when the id is a
key of `kCapNames` the name is a catalog entry of that id, and otherwise it is
`CAP_` followed by the decimal id (negative ids and ids beyond the known set
included); when the keys are pairwise different, every entry's id gets that
entry's name. -/
theorem capName_total (api : NvEncApi) (capId : Int) :
    (capId ∈ (kCapNames api).map Prod.fst →
      ∃ s, (capId, s) ∈ kCapNames api ∧ capName api capId = s) ∧
    (capId ∉ (kCapNames api).map Prod.fst → capName api capId = "CAP_" ++ decStr capId) ∧
    (((kCapNames api).map Prod.fst).Nodup →
      ∀ e ∈ kCapNames api, capName api e.1 = e.2) := by
  refine ⟨?_, ?_, ?_⟩
  · intro hmem
    cases hl : (kCapNames api).lookup capId with
    | none =>
      exfalso
      obtain ⟨e, he, hk⟩ := List.mem_map.1 hmem
      have hfirst : ∀ (l : List (Int × String)), e ∈ l → l.lookup e.1 ≠ none := by
        intro l
        induction l with
        | nil => intro h; cases h
        | cons a l ih =>
          obtain ⟨k', s'⟩ := a
          intro hmem' hnone
          by_cases hk' : e.1 = k'
          · simp [List.lookup, hk'] at hnone
          · have hb : (e.1 == k') = false := by simpa using hk'
            simp only [List.lookup, hb] at hnone
            rcases List.mem_cons.1 hmem' with h | h
            · exact hk' (by rw [h])
            · exact ih h hnone
      rw [← hk] at hl
      exact hfirst _ he hl
    | some s =>
      exact ⟨s, lookup_some_mem _ _ _ hl, by simp [capName, hl]⟩
  · intro h
    simp [capName, lookup_eq_none_of_not_mem _ _ h]
  · intro hnd e he
    simp [capName, lookup_of_mem_nodup _ hnd e he]

/-- Witness of the name lookup: the sample header at the ids 16, 55 and -1. -/
theorem capName_total_witness :
    (∃ s, ((16 : Int), s) ∈ kCapNames sampleApi ∧ capName sampleApi 16 = s) ∧
    capName sampleApi 55 = "CAP_" ++ decStr 55 ∧
    capName sampleApi (-1) = "CAP_-1" ∧
    capName sampleApi 16 = "Max Width" :=
  ⟨(capName_total sampleApi 16).1 (by decide),
   (capName_total sampleApi 55).2.1 (by decide),
   ((capName_total sampleApi (-1)).2.1 (by decide)).trans (by decide),
   (capName_total sampleApi 0).2.2 (by decide) (16, "Max Width") (by decide)⟩

/-- C13: for each simple bound or count capability (max width, max height,
min width, min height, max B-frames, max temporal layers, max macroblocks per
frame, max LTR frames, number of encoder engines), every codec and every raw
value `v`, the decoded value is the decimal rendering of `v`; raw 0 and raw 1
give "0" and "1".  The case labels of the switch are pairwise different. -/
theorem plain_integer_decoding (api : NvEncApi) (codec : GUID) (cap v : Int)
    (hlab : (caseLabels api).Nodup)
    (hcap : cap ∈ [api.NV_ENC_CAPS_WIDTH_MAX, api.NV_ENC_CAPS_HEIGHT_MAX,
      api.NV_ENC_CAPS_WIDTH_MIN, api.NV_ENC_CAPS_HEIGHT_MIN, api.NV_ENC_CAPS_NUM_MAX_BFRAMES,
      api.NV_ENC_CAPS_NUM_MAX_TEMPORAL_LAYERS, api.NV_ENC_CAPS_MB_NUM_MAX,
      api.NV_ENC_CAPS_NUM_MAX_LTR_FRAMES, api.NV_ENC_CAPS_NUM_ENCODER_ENGINES]) :
    decodedValue api codec cap v = decStr v ∧
    decodedValue api codec cap 0 = "0" ∧
    decodedValue api codec cap 1 = "1" := by
  have key : ∀ x : Int, decodedValue api codec cap x = decStr x := by
    intro x
    have h1 := hlab
    have h2 := List.nodup_reverse.2 hlab
    simp only [caseLabels, List.reverse_cons, List.reverse_nil, List.nil_append, List.cons_append,
      List.nodup_cons, List.mem_cons, List.mem_singleton, not_or,
      List.not_mem_nil, not_false_eq_true, List.nodup_nil, and_true] at h1 h2
    simp only [List.mem_cons, List.mem_singleton, List.not_mem_nil, or_false] at hcap
    rcases hcap with rfl | rfl | rfl | rfl | rfl | rfl | rfl | rfl | rfl <;>
      simp [decodedValue, h1, h2]
  refine ⟨key v, ?_, ?_⟩
  · rw [key]; decide
  · rw [key]; decide

/-- Witness of the plain integer decoding: the max-width capability of the
sample header, AV1, raw value 4096. -/
theorem plain_integer_decoding_witness :
    decodedValue sampleApi sampleApi.NV_ENC_CODEC_AV1_GUID sampleApi.NV_ENC_CAPS_WIDTH_MAX 4096
      = decStr 4096 ∧
    decodedValue sampleApi sampleApi.NV_ENC_CODEC_AV1_GUID sampleApi.NV_ENC_CAPS_WIDTH_MAX 0
      = "0" ∧
    decodedValue sampleApi sampleApi.NV_ENC_CODEC_AV1_GUID sampleApi.NV_ENC_CAPS_WIDTH_MAX 1
      = "1" :=
  plain_integer_decoding sampleApi sampleApi.NV_ENC_CODEC_AV1_GUID
    sampleApi.NV_ENC_CAPS_WIDTH_MAX 4096 (by decide) (by decide)

/-- C14, counterexample: the labels of the field-encoding decoder are not
"not supported", "field supported" and "frame+field supported". -/
theorem DecodeFieldEncoding_labels_differ :
    DecodeFieldEncoding 0 ≠ "not supported" ∧
    DecodeFieldEncoding 1 ≠ "field supported" ∧
    DecodeFieldEncoding 2 ≠ "frame+field supported" := by
  decide

/-- C14, as amended: the field-encoding decoder is the 3-way code map with the
labels "Interlaced: not supported" for 0, "Interlaced field: supported" for 1
and "Interlaced frame + field: supported" for 2, and it returns "Unknown" for
exactly the other codes. -/
theorem DecodeFieldEncoding_map (v : Int) :
    DecodeFieldEncoding 0 = "Interlaced: not supported" ∧
    DecodeFieldEncoding 1 = "Interlaced field: supported" ∧
    DecodeFieldEncoding 2 = "Interlaced frame + field: supported" ∧
    (DecodeFieldEncoding v = "Unknown" ↔ ¬ (v = 0 ∨ v = 1 ∨ v = 2)) := by
  refine ⟨rfl, rfl, rfl, ?_⟩
  unfold DecodeFieldEncoding
  by_cases h0 : v = 0
  · subst h0; decide
  · by_cases h1 : v = 1
    · subst h1; decide
    · by_cases h2 : v = 2
      · subst h2; decide
      · simp [h0, h1, h2]

/-- C15: with three different codec GUIDs, for every AV1 level code `c` with
`0 ≤ c < 24` the level name is the decimal of `2 + c / 4`, a dot and the
decimal of `c % 4`. -/
theorem DecodeLevel_av1_formula (api : NvEncApi) (c : Int)
    (hg : [api.NV_ENC_CODEC_H264_GUID, api.NV_ENC_CODEC_HEVC_GUID,
      api.NV_ENC_CODEC_AV1_GUID].Nodup)
    (h0 : 0 ≤ c) (h24 : c < 24) :
    DecodeLevel api api.NV_ENC_CODEC_AV1_GUID c = decStr (2 + c / 4) ++ "." ++ decStr (c % 4) := by
  obtain ⟨_, e31, e32⟩ := guid_tests api hg
  have h := DecodeLevel_av1_in_range api _ c e31 e32 (GuidEqual_self _) ⟨h0, h24⟩
  have hlt : c.toNat < 24 := by omega
  have hv : Int.ofNat c.toNat = c := by simp [Int.toNat_of_nonneg h0]
  have hf := av1_formula ⟨c.toNat, hlt⟩
  simp only [hv] at hf
  rw [h] at hf
  exact Option.some.inj hf

/-- Witness of the AV1 formula: the sample header, code 23, level "7.3". -/
theorem DecodeLevel_av1_formula_witness :
    DecodeLevel sampleApi sampleApi.NV_ENC_CODEC_AV1_GUID 23
      = decStr (2 + 23 / 4) ++ "." ++ decStr (23 % 4) :=
  DecodeLevel_av1_formula sampleApi 23 (by decide) (by decide) (by decide)

/-- C16: with the mode numbers CONSTQP = 0, VBR = 1, CBR = 2, the bits of the
mask outside the three known ones are ignored: the result for `m` is the
result for `m & 7`, and "Other" occurs nowhere in it. -/
theorem rate_control_ignores_other_bits (api : NvEncApi) (m : Int)
    (h0 : api.NV_ENC_PARAMS_RC_CONSTQP = 0) (h1 : api.NV_ENC_PARAMS_RC_VBR = 1)
    (h2 : api.NV_ENC_PARAMS_RC_CBR = 2) :
    DecodeRateControlModes api m = DecodeRateControlModes api (intAnd m 7) ∧
    ¬ ("Other".data <:+: (DecodeRateControlModes api m).data) := by
  rw [DecodeRateControlModes_spec api m h0 h1 h2,
    DecodeRateControlModes_spec api (intAnd m 7) h0 h1 h2]
  constructor
  · have hb : ∀ k, k < 3 → (toU32 (intAnd m 7)).testBit k = (toU32 m).testBit k := by
      intro k hk
      rw [toU32_intAnd_seven]
      have : (8 : Nat) = 2 ^ 3 := by norm_num
      rw [this, Nat.testBit_mod_two_pow]
      simp [hk]
    simp only [rateControlSpec, rateControlNames, List.filter, hb 0 (by norm_num),
      hb 1 (by norm_num), hb 2 (by norm_num)]
  · have hall : ∀ s ∈ ["None", "CBR", "VBR", "VBR, CBR", "CONSTQP", "CONSTQP, CBR",
        "CONSTQP, VBR", "CONSTQP, VBR, CBR"], ¬ ("Other".data <:+: (s : String).data) := by
      decide
    exact hall _ (rateControlSpec_cases m)

/-- Witness of the ignored bits: the sample header, mask 0x7ffffffa. -/
theorem rate_control_ignores_other_bits_witness :
    DecodeRateControlModes sampleApi 2147483642
      = DecodeRateControlModes sampleApi (intAnd 2147483642 7) ∧
    ¬ ("Other".data <:+: (DecodeRateControlModes sampleApi 2147483642).data) :=
  rate_control_ignores_other_bits sampleApi 2147483642 rfl rfl rfl

/-- C17: the B-frame-as-reference decoder and the ME-only-mode decoder each
return "Unknown" for exactly the codes other than 0, 1 and 2 (negative codes
included), "Not supported" for code 0, and for the codes 1 and 2 two labels
that differ from each other, from the label of 0 and from "Unknown". -/
theorem enum_decoders_three_way (v : Int) :
    (DecodeBRefMode v = "Unknown" ↔ ¬ (v = 0 ∨ v = 1 ∨ v = 2)) ∧
    DecodeBRefMode 0 = "Not supported" ∧
    DecodeBRefMode 1 = "Each B-frame can be reference" ∧
    DecodeBRefMode 2 = "Only middle B-frame as reference" ∧
    [DecodeBRefMode 0, DecodeBRefMode 1, DecodeBRefMode 2, "Unknown"].Nodup ∧
    (DecodeMeOnlyMode v = "Unknown" ↔ ¬ (v = 0 ∨ v = 1 ∨ v = 2)) ∧
    DecodeMeOnlyMode 0 = "Not supported" ∧
    DecodeMeOnlyMode 1 = "Supported for I and P" ∧
    DecodeMeOnlyMode 2 = "Supported for I, P and B" ∧
    [DecodeMeOnlyMode 0, DecodeMeOnlyMode 1, DecodeMeOnlyMode 2, "Unknown"].Nodup := by
  refine ⟨?_, rfl, rfl, rfl, by decide, ?_, rfl, rfl, rfl, by decide⟩
  · unfold DecodeBRefMode
    by_cases h0 : v = 0
    · subst h0; decide
    · by_cases h1 : v = 1
      · subst h1; decide
      · by_cases h2 : v = 2
        · subst h2; decide
        · simp [h0, h1, h2]
  · unfold DecodeMeOnlyMode
    by_cases h0 : v = 0
    · subst h0; decide
    · by_cases h1 : v = 1
      · subst h1; decide
      · by_cases h2 : v = 2
        · subst h2; decide
        · simp [h0, h1, h2]

/-- C18: every name of the catalog is at most 38 characters long, and so is
`CAP_<id>` for a 32-bit id; hence the padded name is exactly 38 characters
long for every 32-bit id, and every capability line is a 45-character prefix
(4 characters, the padded name, the 3-character separator) followed by the
decoded value and the line end. -/
theorem name_column_fixed_width (api : NvEncApi) (codec : GUID) (capId v : Int)
    (h32 : -2 ^ 31 ≤ capId ∧ capId < 2 ^ 31) :
    (∀ e ∈ kCapNames api, e.2.length ≤ 38) ∧
    ("CAP_" ++ decStr capId).length ≤ 38 ∧
    (leftJustify38 (capName api capId)).length = 38 ∧
    ("  - " ++ leftJustify38 (capName api capId) ++ " : ").length = 45 ∧
    capLine api codec capId v
      = ("  - " ++ leftJustify38 (capName api capId) ++ " : ") ++
          decodedValue api codec capId v ++ "\n" := by
  have hpad := leftJustify38_length _ (capName_length_le api capId h32)
  refine ⟨?_, ?_, hpad, ?_, rfl⟩
  · intro e he
    have hmem : e.2 ∈ (kCapNames api).map Prod.snd := List.mem_map_of_mem Prod.snd he
    rw [kCapNames_names] at hmem
    exact catalog_names_short _ hmem
  · rw [String.length_append]
    have := decStr_length_le capId h32
    have : ("CAP_" : String).length = 4 := by decide
    omega
  · rw [String.length_append, String.length_append, hpad]
    decide

/-- Witness of the fixed name column: the sample header at the unknown id
-2147483648. -/
theorem name_column_fixed_width_witness :
    (leftJustify38 (capName sampleApi (-2147483648))).length = 38 ∧
    ("  - " ++ leftJustify38 (capName sampleApi (-2147483648)) ++ " : ").length = 45 :=
  ⟨(name_column_fixed_width sampleApi sampleApi.NV_ENC_CODEC_H264_GUID (-2147483648) 0
      (by norm_num)).2.2.1,
   (name_column_fixed_width sampleApi sampleApi.NV_ENC_CODEC_H264_GUID (-2147483648) 0
      (by norm_num)).2.2.2.1⟩

/-- C19: with three different codec GUIDs, for every code `c` of the H.264
table other than 9 the level name is the decimal of `c / 10`, a dot and the
decimal of `c % 10`, and 9 is "1b"; every code `c` of the HEVC table is a
multiple of 3 and its level name is the decimal of `c / 30`, a dot and the
decimal of `c % 30 / 3`. -/
theorem sparse_tables_follow_encoding (api : NvEncApi)
    (hg : [api.NV_ENC_CODEC_H264_GUID, api.NV_ENC_CODEC_HEVC_GUID,
      api.NV_ENC_CODEC_AV1_GUID].Nodup) :
    (∀ c ∈ h264.map Prod.fst, c ≠ 9 →
      DecodeLevel api api.NV_ENC_CODEC_H264_GUID c = decStr (c / 10) ++ "." ++ decStr (c % 10)) ∧
    DecodeLevel api api.NV_ENC_CODEC_H264_GUID 9 = "1b" ∧
    (∀ c ∈ hevc.map Prod.fst, c % 3 = 0 ∧
      DecodeLevel api api.NV_ENC_CODEC_HEVC_GUID c
        = decStr (c / 30) ++ "." ++ decStr (c % 30 / 3)) := by
  obtain ⟨e21, _, _⟩ := guid_tests api hg
  refine ⟨?_, ?_, ?_⟩
  · intro c hc h9
    simp only [DecodeLevel, GuidEqual_self, if_true, h264_formula c hc h9]
  · simp only [DecodeLevel, GuidEqual_self, if_true]
    rfl
  · intro c hc
    obtain ⟨h3, hl⟩ := hevc_formula c hc
    refine ⟨h3, ?_⟩
    simp only [DecodeLevel, e21, GuidEqual_self, if_true, Bool.false_eq_true, if_false, hl]

/-- Witness of the table encodings: the sample header, H.264 code 51 and HEVC
code 156. -/
theorem sparse_tables_follow_encoding_witness :
    DecodeLevel sampleApi sampleApi.NV_ENC_CODEC_H264_GUID 51
      = decStr (51 / 10) ++ "." ++ decStr (51 % 10) ∧
    ((156 : Int) % 3 = 0 ∧ DecodeLevel sampleApi sampleApi.NV_ENC_CODEC_HEVC_GUID 156
      = decStr (156 / 30) ++ "." ++ decStr (156 % 30 / 3)) :=
  ⟨(sparse_tables_follow_encoding sampleApi (by decide)).1 51 (by decide) (by decide),
   (sparse_tables_follow_encoding sampleApi (by decide)).2.2 156 (by decide)⟩

/-- C20: for the preprocessing capability the decoded value is not the bare
decoder output: for every raw value `v` it is `DecodePreprocFlags v`, then
` (0x`, the lowercase hexadecimal of the 32-bit unsigned value of `v` and `)`;
raw 0 is shown as "None (0x0)".  The case labels of the switch are pairwise
different. -/
theorem preproc_dispatch (api : NvEncApi) (codec : GUID) (v : Int)
    (hlab : (caseLabels api).Nodup) :
    decodedValue api codec api.NV_ENC_CAPS_PREPROC_SUPPORT v
      = DecodePreprocFlags v ++ " (0x" ++ hexStr v ++ ")" ∧
    decodedValue api codec api.NV_ENC_CAPS_PREPROC_SUPPORT v ≠ DecodePreprocFlags v ∧
    decodedValue api codec api.NV_ENC_CAPS_PREPROC_SUPPORT 0 = "None (0x0)" := by
  have key : ∀ x : Int, decodedValue api codec api.NV_ENC_CAPS_PREPROC_SUPPORT x
      = DecodePreprocFlags x ++ " (0x" ++ hexStr x ++ ")" := by
    intro x
    have h2 := List.nodup_reverse.2 hlab
    simp only [caseLabels, List.reverse_cons, List.reverse_nil, List.nil_append, List.cons_append,
      List.nodup_cons, List.mem_cons, List.mem_singleton, not_or,
      List.not_mem_nil, not_false_eq_true, List.nodup_nil, and_true] at h2
    simp [decodedValue, h2]
  refine ⟨key v, ?_, ?_⟩
  · rw [key]
    intro h
    have hl := congrArg String.length h
    simp only [String.length_append] at hl
    have : (" (0x" : String).length = 4 := by decide
    omega
  · rw [key]; decide

/-- Witness of the preprocessing line: the sample header, HEVC, raw value 33. -/
theorem preproc_dispatch_witness :
    decodedValue sampleApi sampleApi.NV_ENC_CODEC_HEVC_GUID
        sampleApi.NV_ENC_CAPS_PREPROC_SUPPORT 33
      = DecodePreprocFlags 33 ++ " (0x" ++ hexStr 33 ++ ")" ∧
    decodedValue sampleApi sampleApi.NV_ENC_CODEC_HEVC_GUID
        sampleApi.NV_ENC_CAPS_PREPROC_SUPPORT 33 ≠ DecodePreprocFlags 33 ∧
    decodedValue sampleApi sampleApi.NV_ENC_CODEC_HEVC_GUID
        sampleApi.NV_ENC_CAPS_PREPROC_SUPPORT 0 = "None (0x0)" :=
  preproc_dispatch sampleApi sampleApi.NV_ENC_CODEC_HEVC_GUID 33 (by decide)

end GPUCapsQuery
